import Mathlib

/-!
Verification of the GPS C/A PRN replica-signal generator
(`src/gps/gps_ca_prn_codes.py`).

The Python module generates, for each of the 32 GPS satellites, the
1023-chip C/A "Gold code" from two 10-bit linear-feedback shift
registers (G1, G2), wraps each sequence in a `GpsReplicaPrnSignal`, and
self-verifies the leading chips of every sequence against a table of
octal reference markers.

Machine integers are modelled as `Int` (Python integers; all values
occurring here are small and non-negative), sequences and registers as
`List Int`, tap-position lists as `List Nat` (1-indexed positions, as in
the Python), the two per-satellite lookup tables as association lists in
the source's insertion order, and the `raise ValueError(...)` control
flow as `Except String`.
-/

set_option maxRecDepth 20000

namespace Gypsum

/-- Embedding of `shift(register, feedback, output)`: computes the output
bit from the 1-indexed `output` tap positions (the single tapped value,
or the sum mod 2 of the tapped values when more than one tap is listed),
computes the feedback as the sum mod 2 of the `feedback` tap values,
shifts the register one position to the right and places the feedback in
position 1.  The Python mutates `register` in place and returns the
output bit; here the new register contents are returned as the second
component.  (Python would raise `IndexError` for a tap outside
`[-10, 10]`; `List.getD` with default `0` differs from Python only for
such out-of-range taps, and every call in the module uses taps in
`[1, 10]`.) -/
def shift (register : List Int) (feedback output : List Nat) : Int × List Int :=
  let outs := output.map (fun i => register.getD (i - 1) 0)
  let out := if outs.length > 1 then outs.sum % 2 else outs.headD 0
  let fb := (feedback.map (fun i => register.getD (i - 1) 0)).sum % 2
  (out, fb :: register.dropLast)

/-- The `for _ in range(n)` loop body of `_generate_ca_code_with_taps`:
advance G1 (feedback taps `[3, 10]`, output tap `[10]`) and G2 (feedback
taps `[2, 3, 6, 8, 9, 10]`, output taps `taps`), and append the sum mod 2
of the two output bits. -/
def caLoop (taps : List Nat) : Nat → List Int → List Int → List Int
  | 0, _, _ => []
  | n + 1, G1, G2 =>
    let s1 := shift G1 [3, 10] [10]
    let s2 := shift G2 [2, 3, 6, 8, 9, 10] taps
    ((s1.1 + s2.1) % 2) :: caLoop taps n s1.2 s2.2

/-- Embedding of `_generate_ca_code_with_taps(taps)`: both registers are
initialised to all ones and the loop runs 1023 times. -/
def _generate_ca_code_with_taps (taps : List Nat) : List Int :=
  caLoop taps 1023 (List.replicate 10 1) (List.replicate 10 1)

/-- Embedding of the inner loop of scipy's `max_len_seq` (the
`_max_len_seq_inner` routine that the module's `_generate_ca_code_rolled_by`
calls): a circular-buffer LFSR.  Each step outputs `state[idx]`, xors into
it the values at offsets `taps` (bit xor on 0/1 values is addition mod 2),
stores the result back at `idx` and advances `idx` cyclically. -/
def maxLenSeqGo (nbits : Nat) (taps : List Nat) : Nat → List Int → Nat → List Int
  | 0, _, _ => []
  | n + 1, state, idx =>
    let out := state.getD idx 0
    let fb := taps.foldl (fun acc t => (acc + state.getD ((t + idx) % nbits) 0) % 2) out
    out :: maxLenSeqGo nbits taps n (state.set idx fb) ((idx + 1) % nbits)

/-- Embedding of scipy's `max_len_seq(nbits, taps=taps)[0]` with the
default all-ones initial state: `2 ^ nbits - 1` steps of the
circular-buffer LFSR. -/
def max_len_seq (nbits : Nat) (taps : List Nat) : List Int :=
  maxLenSeqGo nbits taps (2 ^ nbits - 1) (List.replicate nbits 1) 0

/-- Embedding of `np.roll(xs, d)` for `0 ≤ d`: the last `d % length`
elements move to the front (element `i` of the result is element
`(i - d) mod length` of `xs`). -/
def np_roll (xs : List Int) (d : Nat) : List Int := xs.rotateRight d

/-- Embedding of `_generate_ca_code_rolled_by(delay_ms)`: xor of the G1
maximal-length sequence (polynomial `X^10 + X^3 + 1`, scipy taps `[7]`)
with the pure G2 maximal-length sequence (polynomial
`X^10 + X^9 + X^8 + X^6 + X^3 + X^2 + 1`, scipy taps `[1, 2, 4, 7, 8]`)
rolled right by `delay_ms` chips.  `np.bitwise_xor` on 0/1 values is
addition mod 2. -/
def _generate_ca_code_rolled_by (delay_ms : Nat) : List Int :=
  let g1 := max_len_seq 10 [7]
  let g2 := max_len_seq 10 [1, 2, 4, 7, 8]
  List.zipWith (fun a b => (a + b) % 2) g1 (np_roll g2 delay_ms)

/-- Embedding of the dataclass `GpsReplicaPrnSignal` wrapping the replica
PRN signal array for one satellite. -/
structure GpsReplicaPrnSignal where
  inner : List Int

/-- The static table `satellite_id_to_g2_sequence_tap_configuration`,
keyed by satellite id, in the source's insertion order. -/
def satellite_id_to_g2_sequence_tap_configuration : List (Nat × List Nat) :=
  [(1, [2, 6]), (2, [3, 7]), (3, [4, 8]), (4, [5, 9]), (5, [1, 9]), (6, [2, 10]),
   (7, [1, 8]), (8, [2, 9]), (9, [3, 10]), (10, [2, 3]), (11, [3, 4]), (12, [5, 6]),
   (13, [6, 7]), (14, [7, 8]), (15, [8, 9]), (16, [9, 10]), (17, [1, 4]), (18, [2, 5]),
   (19, [3, 6]), (20, [4, 7]), (21, [5, 8]), (22, [6, 9]), (23, [1, 3]), (24, [4, 6]),
   (25, [5, 7]), (26, [6, 8]), (27, [7, 9]), (28, [8, 10]), (29, [1, 6]), (30, [2, 7]),
   (31, [3, 8]), (32, [4, 9])]

/-- The static table `expected_prn_starting_markers` of octal reference
markers, keyed by satellite id, in the source's insertion order. -/
def expected_prn_starting_markers : List (Nat × Nat) :=
  [(1, 1440), (2, 1620), (3, 1710), (4, 1744), (5, 1133), (6, 1455), (7, 1131),
   (8, 1454), (9, 1626), (10, 1504), (11, 1642), (12, 1750), (13, 1764), (14, 1772),
   (15, 1775), (16, 1776), (17, 1156), (18, 1467), (19, 1633), (20, 1715), (21, 1746),
   (22, 1763), (23, 1063), (24, 1706), (25, 1743), (26, 1761), (27, 1770), (28, 1774),
   (29, 1127), (30, 1453), (31, 1625), (32, 1712)]

/-- The dict comprehension in `generate_replica_prn_signals` that builds
`output`: one `GpsReplicaPrnSignal` per tap-table entry, wrapping the raw
chip sequence returned by `_generate_ca_code_with_taps`. -/
def replica_output : List (Nat × GpsReplicaPrnSignal) :=
  satellite_id_to_g2_sequence_tap_configuration.map
    (fun p => (p.1, ⟨_generate_ca_code_with_taps p.2⟩))

/-- Fuel-driven decimal-digit expansion: digits of `n`, most significant
first, for `n > 0` (with at least one unit of fuel per digit). -/
def decDigitsAux : Nat → Nat → List Int
  | 0, _ => []
  | fuel + 1, n => if n = 0 then [] else decDigitsAux fuel (n / 10) ++ [((n % 10 : Nat) : Int)]

/-- Embedding of `str(marker)`: the decimal digit string of a marker,
most significant digit first (`n` itself is enough fuel, one unit per
digit). -/
def decDigits (n : Nat) : List Int :=
  if n = 0 then [0] else decDigitsAux n n

/-- Embedding of `int(''.join([str(bit) for bit in bits]), 2)` for a list
of 0/1 bits: the big-endian binary value of the bits.  (Python raises on
an empty join; the verification loop below only passes 3-bit slices of a
1023-chip sequence, which are never empty.) -/
def octalDigitOfBits (bits : List Int) : Int :=
  bits.foldl (fun acc b => acc * 2 + b) 0

/-- The message of the `ValueError` raised on a digit mismatch, carrying
the satellite id and the actual and expected octal digit values. -/
def mismatchMessage (svid : Nat) (actual expected : Int) : String :=
  "SV " ++ toString svid ++ ": PRN digit " ++ toString actual ++
    " didn\x27t match expected digit " ++ toString expected

/-- The `for digit_idx, expected_prn_octal_digit in enumerate(...)` loop
of the verification pass: compare each remaining marker digit with the
big-endian value of the next 3 bits of `prn` (which has already had its
leading chip dropped), raising on the first mismatch. -/
def checkMarkerDigits (svid : Nat) (prn : List Int) : List Int → Nat → Except String Unit
  | [], _ => .ok ()
  | d :: rest, idx =>
    let actual := octalDigitOfBits ((prn.drop (idx * 3)).take 3)
    if actual ≠ d then .error (mismatchMessage svid actual d)
    else checkMarkerDigits svid prn rest (idx + 1)

/-- The body of the per-satellite verification loop in
`generate_replica_prn_signals`: check that the marker's digit string
begins with `1`, that the generated sequence begins with chip `1`, drop
both leading symbols, and compare the remaining marker digits with
successive 3-bit groups of the sequence. -/
def verifyPrn (svid : Nat) (marker : Nat) (prn : List Int) : Except String Unit :=
  let digits := decDigits marker
  if digits.headD 0 ≠ 1 then
    .error "Test vector PRN is always expected to begin with 1"
  else if prn.headD 0 ≠ 1 then
    .error "Generated PRNs always need to start with 1"
  else
    checkMarkerDigits svid (prn.drop 1) (digits.drop 1) 0

/-- The verification loop over `expected_prn_starting_markers`
(`prn = output[satellite_id].inner`; the keys of `output` coincide with
the marker table's keys, so the Python `KeyError` case of the dict
lookup never arises). -/
def verifyAll : List (Nat × Nat) → List (Nat × GpsReplicaPrnSignal) → Except String Unit
  | [], _ => .ok ()
  | (svid, marker) :: rest, tbl =>
    match verifyPrn svid marker ((tbl.lookup svid).getD ⟨[]⟩).inner with
    | .ok _ => verifyAll rest tbl
    | .error e => .error e

/-- Embedding of `generate_replica_prn_signals()`: build the full replica
table, then run the verification pass; the table is returned only when
no `ValueError` was raised. -/
def generate_replica_prn_signals : Except String (List (Nat × GpsReplicaPrnSignal)) :=
  match verifyAll expected_prn_starting_markers replica_output with
  | .ok _ => .ok replica_output
  | .error e => .error e

/-- Modelled from the spec: the per-satellite standardized chip delays of
the G2 sequence ("rotation amount = satellite-specific chip delay",
spec section 4.2), i.e. the code-delay column of the code-phase-assignment
table of IS-GPS-200 Table 3-Ia.  The source module defines the
`ChipDelayMs` new-type for these delays but contains no table of their
values, so the table is reproduced here from the governing document the
spec cites. -/
def gps_satellite_chip_delays : List (Nat × Nat) :=
  [(1, 5), (2, 6), (3, 7), (4, 8), (5, 17), (6, 18), (7, 139), (8, 140), (9, 141),
   (10, 251), (11, 252), (12, 254), (13, 255), (14, 256), (15, 257), (16, 258),
   (17, 469), (18, 470), (19, 471), (20, 472), (21, 473), (22, 474), (23, 509),
   (24, 512), (25, 513), (26, 514), (27, 515), (28, 516), (29, 859), (30, 860),
   (31, 861), (32, 862)]

/-! ## Proof infrastructure

Helper definitions used to reason about the register iterations; they
are connected to the embedded source by the lemmas below. -/

/-- The register-update half of `shift`: the feedback bit (the sum mod 2
of the feedback-tap values) consed onto the register with its last
element dropped.  `(shift r f o).2 = regStep f r` definitionally. -/
def regStep (f : List Nat) (r : List Int) : List Int :=
  ((f.map (fun i => r.getD (i - 1) 0)).sum % 2) :: r.dropLast

theorem shift_snd (r : List Int) (f o : List Nat) : (shift r f o).2 = regStep f r := rfl

/-- The register contents after `n` advances of a single LFSR. -/
def regStateN (f : List Nat) : Nat → List Int → List Int
  | 0, r => r
  | n + 1, r => regStateN f n (regStep f r)

/-- The stream of position-10 register values over `n` advances. -/
def regOuts (f : List Nat) : Nat → List Int → List Int
  | 0, _ => []
  | n + 1, r => r.getD 9 0 :: regOuts f n (regStep f r)

/-- The all-ones initial register. -/
def init10 : List Int := List.replicate 10 1

/-- The infinite position-10 output stream of an LFSR started from the
all-ones register. -/
def vS (f : List Nat) (k : Nat) : Int := (regStateN f k init10).getD 9 0

theorem regStateN_succ_left (f : List Nat) (n : Nat) (r : List Int) :
    regStateN f (n + 1) r = regStateN f n (regStep f r) := rfl

theorem regStateN_succ_right (f : List Nat) (n : Nat) (r : List Int) :
    regStateN f (n + 1) r = regStep f (regStateN f n r) := by
  induction n generalizing r with
  | zero => rfl
  | succ n ih => rw [regStateN_succ_left, ih, regStateN_succ_left]

theorem regStateN_add (f : List Nat) (m n : Nat) (r : List Int) :
    regStateN f (m + n) r = regStateN f n (regStateN f m r) := by
  induction m generalizing r with
  | zero => rw [Nat.zero_add]; rfl
  | succ m ih =>
    rw [show m + 1 + n = (m + n) + 1 from by omega, regStateN_succ_left,
      regStateN_succ_left, ih]

theorem regOuts_add (f : List Nat) (m n : Nat) (r : List Int) :
    regOuts f (m + n) r = regOuts f m r ++ regOuts f n (regStateN f m r) := by
  induction m generalizing r with
  | zero => rw [Nat.zero_add]; rfl
  | succ m ih =>
    rw [show m + 1 + n = (m + n) + 1 from by omega]
    show (r.getD 9 0) :: regOuts f (m + n) (regStep f r) = _
    rw [ih]
    rfl

theorem regOuts_getD (f : List Nat) (n k : Nat) (r : List Int) (h : k < n) :
    (regOuts f n r).getD k 0 = (regStateN f k r).getD 9 0 := by
  induction n generalizing k r with
  | zero => omega
  | succ n ih =>
    match k with
    | 0 => rfl
    | k + 1 =>
      show (regOuts f n (regStep f r)).getD k 0 = _
      rw [ih k (regStep f r) (by omega)]
      rfl

theorem regStep_length (f : List Nat) (r : List Int) (h : r ≠ []) :
    (regStep f r).length = r.length := by
  cases r with
  | nil => exact absurd rfl h
  | cons a l => simp [regStep]

theorem regStateN_init10_length (f : List Nat) (n : Nat) :
    (regStateN f n init10).length = 10 := by
  induction n with
  | zero => rfl
  | succ n ih =>
    rw [regStateN_succ_right, regStep_length]
    · exact ih
    · intro h
      rw [h] at ih
      simp at ih

/-- One rightward shift: position `j + 2` of the next state holds what
position `j + 1` held (0-indexed: `getD (j + 1)` of the new register is
`getD j` of the old one). -/
theorem regStep_getD_succ (f : List Nat) (r : List Int) (j : Nat) (h : j + 1 < r.length) :
    (regStep f r).getD (j + 1) 0 = r.getD j 0 := by
  show (r.dropLast).getD j 0 = r.getD j 0
  rw [List.getD_eq_getElem?_getD, List.getD_eq_getElem?_getD]
  rw [List.getElem?_eq_getElem (by simp [List.length_dropLast]; omega),
    List.getElem?_eq_getElem (by omega)]
  simp [List.getElem_dropLast]

/-- The window property: position `j + 1` (1-indexed) of the register at
step `k` carries the value that the position-10 output stream produces
at step `k + (9 - j)`. -/
theorem regStateN_window (f : List Nat) (d k j : Nat) (hj : j + d = 9) :
    (regStateN f k init10).getD j 0 = vS f (k + d) := by
  induction d generalizing k j with
  | zero =>
    have : j = 9 := by omega
    subst this
    rfl
  | succ d ih =>
    have h1 : (regStateN f (k + 1) init10).getD (j + 1) 0 = (regStateN f k init10).getD j 0 := by
      rw [regStateN_succ_right]
      exact regStep_getD_succ f _ j (by rw [regStateN_init10_length]; omega)
    rw [← h1, ih (k + 1) (j + 1) (by omega)]
    congr 1
    omega

theorem shift_single_ten_fst (r : List Int) (f : List Nat) :
    (shift r f [10]).1 = r.getD 9 0 := rfl

theorem shift_pair_fst (r : List Int) (f : List Nat) (ta tb : Nat) :
    (shift r f [ta, tb]).1 = (r.getD (ta - 1) 0 + r.getD (tb - 1) 0) % 2 := by
  show (r.getD (ta - 1) 0 + (r.getD (tb - 1) 0 + 0)) % 2 = _
  rw [Int.add_zero]

theorem caLoop_succ (taps : List Nat) (n : Nat) (G1 G2 : List Int) :
    caLoop taps (n + 1) G1 G2 =
      ((shift G1 [3, 10] [10]).1 + (shift G2 [2, 3, 6, 8, 9, 10] taps).1) % 2 ::
        caLoop taps n (regStep [3, 10] G1) (regStep [2, 3, 6, 8, 9, 10] G2) := rfl

/-- Closed form of the hand-rolled Gold-code loop: started from the
registers reached after `k` steps, chip `i` of the output is the xor of
the G1 position-10 stream at time `k + i` with the two G2 tap streams,
each of which is the G2 position-10 stream advanced by `10 - tap`. -/
theorem caLoop_formula (ta tb : Nat) (h1 : 1 ≤ ta) (h2 : ta ≤ 10)
    (h3 : 1 ≤ tb) (h4 : tb ≤ 10) (n k : Nat) :
    caLoop [ta, tb] n (regStateN [3, 10] k init10)
        (regStateN [2, 3, 6, 8, 9, 10] k init10) =
      (List.range n).map (fun i =>
        (vS [3, 10] (k + i) +
          (vS [2, 3, 6, 8, 9, 10] (k + i + (10 - ta)) +
            vS [2, 3, 6, 8, 9, 10] (k + i + (10 - tb))) % 2) % 2) := by
  induction n generalizing k with
  | zero => rfl
  | succ n ih =>
    rw [caLoop_succ, shift_single_ten_fst, shift_pair_fst,
      ← regStateN_succ_right, ← regStateN_succ_right, ih (k + 1),
      List.range_succ_eq_map, List.map_cons, List.map_map]
    have hg2a : (regStateN [2, 3, 6, 8, 9, 10] k init10).getD (ta - 1) 0 =
        vS [2, 3, 6, 8, 9, 10] (k + (10 - ta)) :=
      regStateN_window _ (10 - ta) k (ta - 1) (by omega)
    have hg2b : (regStateN [2, 3, 6, 8, 9, 10] k init10).getD (tb - 1) 0 =
        vS [2, 3, 6, 8, 9, 10] (k + (10 - tb)) :=
      regStateN_window _ (10 - tb) k (tb - 1) (by omega)
    congr 1
    · rw [hg2a, hg2b]
      show (vS [3, 10] k + _) % 2 = _
      rw [Nat.add_zero k]
    · apply List.map_congr_left
      intro i _
      have e1 : k + 1 + i = k + (i + 1) := by omega
      have e2 : k + 1 + i + (10 - ta) = k + (i + 1) + (10 - ta) := by omega
      have e3 : k + 1 + i + (10 - tb) = k + (i + 1) + (10 - tb) := by omega
      simp only [Function.comp, e1, e2, e3]

theorem caLoop_length (taps : List Nat) (n : Nat) (G1 G2 : List Int) :
    (caLoop taps n G1 G2).length = n := by
  induction n generalizing G1 G2 with
  | zero => rfl
  | succ n ih => rw [caLoop_succ, List.length_cons, ih]

theorem caLoop_mem (taps : List Nat) (n : Nat) (G1 G2 : List Int) (b : Int)
    (hb : b ∈ caLoop taps n G1 G2) : b = 0 ∨ b = 1 := by
  induction n generalizing G1 G2 with
  | zero => simp [caLoop] at hb
  | succ n ih =>
    rw [caLoop_succ] at hb
    rcases List.mem_cons.mp hb with h | h
    · subst h
      exact Int.emod_two_eq_zero_or_one _
    · exact ih _ _ h

/-- The state-update half of one `maxLenSeqGo` step: the output value at
`idx` is replaced by the new feedback and the index advances
cyclically. -/
def msStep (nbits : Nat) (taps : List Nat) (s : List Int × Nat) : List Int × Nat :=
  (s.1.set s.2
      (taps.foldl (fun acc t => (acc + s.1.getD ((t + s.2) % nbits) 0) % 2) (s.1.getD s.2 0)),
   (s.2 + 1) % nbits)

/-- The circular-buffer state after `n` steps of `maxLenSeqGo`. -/
def msStateN (nbits : Nat) (taps : List Nat) : Nat → List Int × Nat → List Int × Nat
  | 0, s => s
  | n + 1, s => msStateN nbits taps n (msStep nbits taps s)

theorem maxLenSeqGo_succ (nbits : Nat) (taps : List Nat) (n : Nat) (state : List Int) (idx : Nat) :
    maxLenSeqGo nbits taps (n + 1) state idx =
      state.getD idx 0 ::
        maxLenSeqGo nbits taps n (msStep nbits taps (state, idx)).1
          (msStep nbits taps (state, idx)).2 := rfl

theorem maxLenSeqGo_add (nbits : Nat) (taps : List Nat) (m n : Nat) (s : List Int × Nat) :
    maxLenSeqGo nbits taps (m + n) s.1 s.2 =
      maxLenSeqGo nbits taps m s.1 s.2 ++
        maxLenSeqGo nbits taps n (msStateN nbits taps m s).1 (msStateN nbits taps m s).2 := by
  induction m generalizing s with
  | zero => rw [Nat.zero_add]; rfl
  | succ m ih =>
    rw [show m + 1 + n = (m + n) + 1 from by omega, maxLenSeqGo_succ, maxLenSeqGo_succ,
      List.cons_append, ih (msStep nbits taps s)]
    rfl

/-- Assemble a register output stream from one literal chunk and the
rest; used to evaluate long streams without deep kernel recursion. -/
theorem regOuts_chunk (f : List Nat) (m c n : Nat) (S S' L : List Int)
    (hm : m = c + n) (hS : regStateN f c S = S') (hhead : regOuts f c S = L.take c)
    (htail : regOuts f n S' = L.drop c) : regOuts f m S = L := by
  subst hm
  rw [regOuts_add, hS, hhead, htail, List.take_append_drop]

/-- Assemble a `maxLenSeqGo` output stream from one literal chunk and
the rest. -/
theorem msGo_chunk (nbits : Nat) (taps : List Nat) (m c n : Nat)
    (S S' : List Int × Nat) (L : List Int)
    (hm : m = c + n) (hS : msStateN nbits taps c S = S')
    (hhead : maxLenSeqGo nbits taps c S.1 S.2 = L.take c)
    (htail : maxLenSeqGo nbits taps n S'.1 S'.2 = L.drop c) :
    maxLenSeqGo nbits taps m S.1 S.2 = L := by
  subst hm
  rw [maxLenSeqGo_add, hS, hhead, htail, List.take_append_drop]

/-- Literal value of the G1 position-10 output stream over 1033 steps. -/
def V1LIT : List Int :=
  [1, 1, 1, 1, 1, 1, 1, 1, 1, 1, 0, 0, 0, 1, 1, 1, 0, 0, 0, 1, 0, 0, 1, 1, 1, 0, 1, 1, 0, 0, 1, 0, 1, 0, 1, 1, 1, 0, 1, 1, 1, 1, 0, 1, 0, 1, 0, 0, 0, 1, 1, 1, 1, 0, 1, 0, 0, 1, 0, 1, 0, 1, 0, 0, 0, 0, 0, 1, 0, 1, 1, 1, 1, 1, 1, 1, 1, 0, 1, 0, 1, 0, 1, 0, 1, 0, 1, 1, 1, 1, 0, 1, 0, 0, 0, 0, 1, 1, 1, 0, 1, 0, 0, 1, 0, 0, 0, 1, 1, 0, 0, 1, 0, 1, 1, 0, 1, 0, 1, 1, 0, 0, 1, 1, 1, 1, 0, 1, 0, 1, 1, 0, 0, 0, 1, 1, 0, 0, 1, 1, 1, 1, 1, 1, 0, 0, 1, 0, 1, 0, 1, 0, 1, 0, 0, 1, 1, 0, 0, 1, 1, 0, 0, 1, 0, 1, 0, 0, 1, 1, 1, 1, 1, 0, 1, 0, 0, 1, 1, 1, 0, 0, 0, 0, 1, 0, 0, 0, 1, 1, 0, 1, 1, 0, 0, 1, 0, 0, 0, 1, 0, 1, 0, 0, 1, 1, 0, 1, 1, 1, 1, 0, 1, 1, 1, 0, 1, 0, 1, 0, 1, 1, 1, 0, 0, 1, 1, 0, 0, 1, 1, 1, 0, 1, 1, 1, 0, 1, 1, 1, 0, 0, 1, 1, 1, 0, 1, 0, 1, 0, 0, 1, 1, 1, 0, 1, 0, 0, 0, 0, 0, 1, 1, 1, 1, 0, 1, 1, 0, 1, 1, 1, 0, 0, 0, 0, 1, 1, 0, 0, 0, 1, 0, 0, 1, 0, 1, 0, 0, 1, 0, 1, 1, 0, 0, 1, 1, 0, 1, 0, 0, 0, 1, 0, 0, 0, 1, 0, 1, 1, 0, 1, 0, 0, 1, 0, 1, 1, 1, 0, 1, 0, 0, 1, 1, 0, 0, 0, 1, 0, 1, 1, 0, 0, 0, 0, 0, 0, 1, 0, 1, 0, 0, 1, 0, 0, 1, 0, 1, 1, 1, 1, 1, 0, 1, 1, 1, 1, 0, 0, 0, 1, 1, 0, 0, 0, 1, 1, 0, 1, 1, 1, 0, 1, 1, 0, 0, 0, 0, 1, 1, 1, 1, 0, 0, 1, 0, 0, 1, 1, 1, 0, 0, 1, 0, 1, 1, 0, 0, 0, 1, 0, 0, 0, 0, 1, 1, 0, 1, 1, 1, 1, 1, 1, 1, 0, 0, 1, 1, 1, 0, 0, 0, 1, 1, 0, 1, 0, 1, 0, 0, 1, 0, 1, 0, 0, 0, 0, 1, 0, 0, 0, 0, 1, 0, 0, 1, 0, 1, 1, 0, 1, 1, 1, 1, 1, 0, 1, 0, 1, 1, 1, 0, 0, 0, 1, 0, 1, 1, 1, 0, 0, 1, 0, 0, 0, 0, 1, 1, 1, 1, 1, 0, 1, 1, 0, 1, 0, 1, 0, 1, 0, 0, 0, 1, 0, 1, 1, 1, 1, 0, 1, 1, 0, 0, 1, 1, 1, 0, 0, 1, 1, 1, 1, 1, 0, 0, 0, 0, 0, 1, 1, 1, 0, 0, 1, 0, 0, 1, 0, 1, 0, 1, 1, 0, 0, 1, 0, 1, 1, 1, 1, 0, 0, 1, 0, 1, 1, 1, 0, 0, 0, 0, 0, 1, 0, 1, 0, 1, 1, 0, 1, 1, 0, 0, 1, 1, 0, 0, 0, 0, 1, 1, 0, 1, 0, 1, 1, 0, 1, 1, 1, 0, 1, 0, 0, 0, 1, 0, 1, 0, 1, 1, 1, 1, 1, 1, 0, 1, 0, 0, 0, 1, 1, 1, 0, 0, 1, 1, 0, 1, 1, 1, 0, 0, 1, 0, 1, 0, 0, 0, 1, 1, 0, 1, 0, 0, 0, 0, 0, 0, 1, 1, 0, 0, 1, 0, 0, 1, 0, 0, 0, 1, 0, 0, 0, 0, 0, 1, 0, 0, 1, 1, 0, 1, 1, 0, 1, 0, 0, 1, 1, 1, 1, 0, 0, 1, 1, 0, 1, 0, 1, 0, 1, 1, 0, 0, 0, 0, 1, 0, 1, 1, 1, 0, 1, 1, 0, 1, 0, 0, 0, 1, 1, 0, 0, 0, 0, 1, 0, 0, 1, 1, 1, 1, 1, 1, 1, 0, 1, 1, 1, 0, 0, 0, 1, 1, 1, 1, 0, 0, 0, 0, 0, 0, 1, 1, 1, 0, 1, 1, 0, 1, 1, 0, 0, 0, 1, 0, 1, 0, 0, 0, 1, 0, 0, 1, 1, 0, 0, 1, 0, 0, 0, 0, 0, 1, 1, 0, 1, 0, 0, 1, 0, 0, 1, 1, 1, 1, 0, 1, 1, 1, 1, 1, 0, 0, 0, 1, 0, 1, 0, 1, 0, 1, 1, 0, 1, 0, 0, 0, 0, 1, 0, 1, 0, 0, 0, 0, 0, 0, 0, 1, 0, 1, 1, 0, 1, 1, 0, 1, 1, 1, 1, 0, 0, 1, 1, 1, 1, 0, 0, 0, 1, 0, 0, 0, 1, 1, 1, 1, 1, 1, 0, 1, 1, 0, 0, 0, 1, 1, 1, 0, 1, 0, 1, 1, 0, 1, 0, 1, 0, 0, 0, 0, 1, 1, 0, 0, 1, 1, 0, 1, 1, 0, 0, 0, 0, 0, 1, 1, 0, 0, 0, 0, 0, 0, 0, 0, 1, 1, 0, 1, 1, 0, 1, 1, 0, 1, 0, 1, 1, 1, 0, 1, 0, 1, 1, 1, 1, 0, 0, 0, 0, 1, 0, 1, 0, 1, 0, 0, 1, 0, 0, 0, 0, 1, 0, 1, 1, 0, 0, 1, 0, 0, 1, 1, 0, 0, 0, 0, 0, 1, 0, 0, 0, 1, 0, 0, 1, 0, 0, 0, 0, 0, 0, 1, 0, 0, 0, 0, 0, 0, 0, 0, 0, 1, 0, 0, 1, 0, 0, 1, 0, 0, 1, 1, 0, 1, 0, 0, 1, 1, 0, 1, 0, 1, 1, 1, 1, 1, 0, 0, 1, 1, 0, 0, 0, 1, 1, 1, 1, 1, 0, 0, 1, 0, 0, 0, 1, 1, 1, 0, 1, 1, 1, 1, 1, 1, 0, 0, 0, 0, 1, 1, 1, 0, 0, 0, 0, 0, 0, 0, 1, 1, 1, 1, 1, 1, 1, 1, 1, 1]

/-- Literal value of the G2 position-10 output stream over 1033 steps. -/
def V2LIT : List Int :=
  [1, 1, 1, 1, 1, 1, 1, 1, 1, 1, 0, 0, 1, 0, 1, 1, 0, 1, 0, 0, 1, 0, 1, 0, 1, 1, 1, 1, 0, 1, 0, 1, 0, 0, 0, 0, 0, 1, 1, 1, 1, 1, 0, 1, 0, 1, 0, 1, 0, 1, 1, 0, 1, 0, 0, 0, 0, 0, 1, 0, 1, 0, 0, 1, 1, 1, 0, 1, 1, 1, 0, 0, 1, 0, 0, 0, 0, 1, 1, 0, 1, 0, 0, 0, 1, 1, 0, 0, 1, 1, 1, 1, 1, 0, 1, 1, 1, 1, 0, 1, 1, 0, 1, 0, 0, 1, 1, 1, 1, 0, 0, 1, 0, 1, 0, 0, 0, 1, 1, 1, 1, 0, 1, 1, 0, 0, 0, 1, 0, 0, 1, 0, 1, 1, 1, 1, 0, 1, 1, 1, 1, 1, 1, 0, 1, 0, 0, 1, 0, 0, 1, 0, 1, 1, 0, 1, 1, 0, 0, 1, 0, 0, 0, 0, 0, 1, 1, 0, 1, 0, 1, 0, 0, 0, 1, 0, 0, 0, 0, 1, 0, 1, 0, 0, 0, 1, 0, 1, 0, 1, 0, 1, 1, 1, 1, 1, 1, 1, 0, 1, 0, 1, 1, 1, 1, 0, 0, 0, 0, 1, 1, 0, 1, 1, 0, 1, 0, 0, 0, 1, 0, 0, 1, 0, 0, 1, 0, 0, 1, 1, 0, 0, 0, 1, 0, 1, 0, 1, 1, 1, 0, 0, 0, 1, 0, 0, 1, 1, 1, 0, 0, 0, 0, 0, 0, 0, 1, 0, 0, 1, 0, 1, 0, 1, 0, 1, 0, 1, 0, 0, 0, 1, 1, 0, 1, 1, 0, 0, 0, 1, 1, 0, 0, 1, 0, 1, 0, 0, 1, 1, 0, 0, 0, 0, 0, 0, 1, 0, 1, 0, 1, 1, 0, 0, 1, 1, 0, 0, 1, 0, 0, 1, 1, 1, 1, 1, 1, 0, 0, 1, 1, 1, 0, 1, 0, 0, 1, 0, 1, 1, 1, 0, 0, 0, 0, 0, 1, 0, 0, 1, 1, 1, 1, 0, 1, 1, 1, 0, 1, 0, 1, 0, 0, 1, 0, 1, 0, 0, 1, 0, 0, 1, 1, 1, 0, 1, 0, 1, 1, 1, 0, 0, 1, 1, 1, 1, 0, 1, 0, 1, 1, 0, 1, 1, 1, 1, 0, 0, 0, 1, 1, 0, 1, 0, 1, 1, 0, 1, 0, 1, 0, 1, 1, 0, 0, 0, 1, 1, 1, 0, 0, 1, 0, 0, 1, 0, 0, 0, 1, 1, 1, 1, 1, 1, 0, 1, 1, 0, 0, 1, 1, 1, 1, 0, 0, 0, 0, 0, 1, 1, 0, 0, 0, 0, 1, 1, 0, 0, 1, 1, 0, 1, 0, 1, 0, 1, 0, 0, 1, 1, 0, 1, 0, 1, 1, 1, 1, 1, 0, 1, 1, 0, 1, 1, 0, 0, 0, 0, 1, 1, 1, 0, 0, 0, 1, 1, 1, 0, 1, 1, 1, 1, 0, 0, 1, 1, 0, 1, 0, 0, 0, 0, 1, 1, 1, 0, 1, 0, 0, 0, 0, 0, 0, 0, 0, 1, 1, 1, 0, 0, 1, 1, 0, 0, 1, 1, 0, 0, 0, 0, 1, 0, 0, 1, 0, 0, 0, 0, 1, 0, 0, 0, 1, 1, 0, 0, 0, 1, 0, 0, 0, 0, 0, 0, 0, 1, 1, 0, 0, 1, 0, 0, 0, 1, 0, 0, 0, 1, 1, 1, 0, 1, 0, 1, 0, 1, 1, 1, 0, 1, 0, 0, 1, 1, 1, 0, 0, 1, 0, 1, 1, 1, 1, 1, 1, 0, 0, 0, 1, 0, 1, 0, 0, 1, 0, 1, 1, 0, 0, 1, 1, 1, 0, 0, 1, 1, 1, 0, 0, 0, 1, 0, 1, 1, 0, 0, 1, 0, 1, 1, 1, 0, 1, 0, 1, 1, 0, 0, 1, 0, 0, 1, 0, 1, 0, 0, 0, 0, 1, 0, 0, 1, 1, 0, 1, 1, 0, 0, 1, 1, 0, 1, 1, 1, 1, 0, 1, 0, 0, 0, 1, 1, 1, 0, 0, 0, 0, 1, 0, 1, 0, 1, 0, 0, 1, 0, 0, 0, 1, 0, 1, 0, 0, 0, 0, 0, 0, 1, 0, 0, 0, 0, 0, 1, 0, 0, 0, 1, 0, 0, 1, 1, 0, 0, 1, 1, 1, 0, 1, 1, 0, 0, 1, 0, 1, 0, 1, 1, 0, 1, 1, 0, 1, 1, 1, 1, 1, 0, 1, 0, 0, 0, 0, 1, 0, 1, 1, 0, 1, 0, 1, 1, 1, 0, 1, 1, 0, 0, 0, 0, 0, 1, 0, 1, 1, 0, 0, 0, 0, 0, 0, 0, 0, 0, 1, 0, 1, 1, 1, 0, 1, 1, 1, 0, 1, 1, 1, 1, 1, 0, 0, 0, 1, 1, 1, 1, 1, 0, 0, 0, 0, 1, 0, 0, 0, 0, 1, 1, 1, 1, 1, 1, 1, 1, 0, 1, 1, 1, 0, 0, 0, 0, 1, 1, 1, 1, 0, 1, 0, 0, 1, 1, 0, 0, 1, 0, 1, 1, 0, 0, 0, 1, 0, 1, 1, 1, 0, 0, 1, 0, 1, 0, 1, 0, 0, 0, 0, 1, 1, 0, 0, 0, 1, 1, 0, 1, 1, 1, 0, 1, 0, 0, 0, 1, 0, 1, 1, 1, 1, 0, 0, 1, 0, 0, 0, 1, 1, 0, 1, 0, 0, 1, 1, 0, 1, 1, 1, 0, 0, 0, 1, 1, 0, 0, 0, 0, 0, 1, 1, 1, 0, 1, 1, 0, 1, 1, 1, 0, 1, 1, 0, 1, 0, 1, 1, 0, 0, 0, 0, 1, 0, 1, 1, 1, 1, 1, 0, 0, 1, 1, 0, 0, 0, 1, 1, 1, 1, 0, 0, 1, 1, 1, 1, 1, 1, 1, 0, 0, 0, 0, 0, 0, 1, 1, 1, 1, 0, 0, 0, 1, 0, 0, 0, 1, 0, 1, 1, 0, 1, 1, 1, 0, 0, 1, 1, 0, 1, 1, 0, 1, 1, 0, 1, 0, 1, 0, 0, 1, 1, 1, 1, 1, 0, 0, 1, 0, 0, 1, 1, 0, 1, 0, 0, 1, 0, 0, 0, 0, 0, 0, 1, 1, 0, 1, 1, 1, 1, 1, 1, 1, 1, 1, 1]

/-- Literal value of `max_len_seq 10 [7]` (the scipy G1 m-sequence). -/
def A1LIT : List Int :=
  [1, 1, 1, 1, 1, 1, 1, 1, 1, 1, 0, 0, 0, 1, 1, 1, 0, 0, 0, 1, 0, 0, 1, 1, 1, 0, 1, 1, 0, 0, 1, 0, 1, 0, 1, 1, 1, 0, 1, 1, 1, 1, 0, 1, 0, 1, 0, 0, 0, 1, 1, 1, 1, 0, 1, 0, 0, 1, 0, 1, 0, 1, 0, 0, 0, 0, 0, 1, 0, 1, 1, 1, 1, 1, 1, 1, 1, 0, 1, 0, 1, 0, 1, 0, 1, 0, 1, 1, 1, 1, 0, 1, 0, 0, 0, 0, 1, 1, 1, 0, 1, 0, 0, 1, 0, 0, 0, 1, 1, 0, 0, 1, 0, 1, 1, 0, 1, 0, 1, 1, 0, 0, 1, 1, 1, 1, 0, 1, 0, 1, 1, 0, 0, 0, 1, 1, 0, 0, 1, 1, 1, 1, 1, 1, 0, 0, 1, 0, 1, 0, 1, 0, 1, 0, 0, 1, 1, 0, 0, 1, 1, 0, 0, 1, 0, 1, 0, 0, 1, 1, 1, 1, 1, 0, 1, 0, 0, 1, 1, 1, 0, 0, 0, 0, 1, 0, 0, 0, 1, 1, 0, 1, 1, 0, 0, 1, 0, 0, 0, 1, 0, 1, 0, 0, 1, 1, 0, 1, 1, 1, 1, 0, 1, 1, 1, 0, 1, 0, 1, 0, 1, 1, 1, 0, 0, 1, 1, 0, 0, 1, 1, 1, 0, 1, 1, 1, 0, 1, 1, 1, 0, 0, 1, 1, 1, 0, 1, 0, 1, 0, 0, 1, 1, 1, 0, 1, 0, 0, 0, 0, 0, 1, 1, 1, 1, 0, 1, 1, 0, 1, 1, 1, 0, 0, 0, 0, 1, 1, 0, 0, 0, 1, 0, 0, 1, 0, 1, 0, 0, 1, 0, 1, 1, 0, 0, 1, 1, 0, 1, 0, 0, 0, 1, 0, 0, 0, 1, 0, 1, 1, 0, 1, 0, 0, 1, 0, 1, 1, 1, 0, 1, 0, 0, 1, 1, 0, 0, 0, 1, 0, 1, 1, 0, 0, 0, 0, 0, 0, 1, 0, 1, 0, 0, 1, 0, 0, 1, 0, 1, 1, 1, 1, 1, 0, 1, 1, 1, 1, 0, 0, 0, 1, 1, 0, 0, 0, 1, 1, 0, 1, 1, 1, 0, 1, 1, 0, 0, 0, 0, 1, 1, 1, 1, 0, 0, 1, 0, 0, 1, 1, 1, 0, 0, 1, 0, 1, 1, 0, 0, 0, 1, 0, 0, 0, 0, 1, 1, 0, 1, 1, 1, 1, 1, 1, 1, 0, 0, 1, 1, 1, 0, 0, 0, 1, 1, 0, 1, 0, 1, 0, 0, 1, 0, 1, 0, 0, 0, 0, 1, 0, 0, 0, 0, 1, 0, 0, 1, 0, 1, 1, 0, 1, 1, 1, 1, 1, 0, 1, 0, 1, 1, 1, 0, 0, 0, 1, 0, 1, 1, 1, 0, 0, 1, 0, 0, 0, 0, 1, 1, 1, 1, 1, 0, 1, 1, 0, 1, 0, 1, 0, 1, 0, 0, 0, 1, 0, 1, 1, 1, 1, 0, 1, 1, 0, 0, 1, 1, 1, 0, 0, 1, 1, 1, 1, 1, 0, 0, 0, 0, 0, 1, 1, 1, 0, 0, 1, 0, 0, 1, 0, 1, 0, 1, 1, 0, 0, 1, 0, 1, 1, 1, 1, 0, 0, 1, 0, 1, 1, 1, 0, 0, 0, 0, 0, 1, 0, 1, 0, 1, 1, 0, 1, 1, 0, 0, 1, 1, 0, 0, 0, 0, 1, 1, 0, 1, 0, 1, 1, 0, 1, 1, 1, 0, 1, 0, 0, 0, 1, 0, 1, 0, 1, 1, 1, 1, 1, 1, 0, 1, 0, 0, 0, 1, 1, 1, 0, 0, 1, 1, 0, 1, 1, 1, 0, 0, 1, 0, 1, 0, 0, 0, 1, 1, 0, 1, 0, 0, 0, 0, 0, 0, 1, 1, 0, 0, 1, 0, 0, 1, 0, 0, 0, 1, 0, 0, 0, 0, 0, 1, 0, 0, 1, 1, 0, 1, 1, 0, 1, 0, 0, 1, 1, 1, 1, 0, 0, 1, 1, 0, 1, 0, 1, 0, 1, 1, 0, 0, 0, 0, 1, 0, 1, 1, 1, 0, 1, 1, 0, 1, 0, 0, 0, 1, 1, 0, 0, 0, 0, 1, 0, 0, 1, 1, 1, 1, 1, 1, 1, 0, 1, 1, 1, 0, 0, 0, 1, 1, 1, 1, 0, 0, 0, 0, 0, 0, 1, 1, 1, 0, 1, 1, 0, 1, 1, 0, 0, 0, 1, 0, 1, 0, 0, 0, 1, 0, 0, 1, 1, 0, 0, 1, 0, 0, 0, 0, 0, 1, 1, 0, 1, 0, 0, 1, 0, 0, 1, 1, 1, 1, 0, 1, 1, 1, 1, 1, 0, 0, 0, 1, 0, 1, 0, 1, 0, 1, 1, 0, 1, 0, 0, 0, 0, 1, 0, 1, 0, 0, 0, 0, 0, 0, 0, 1, 0, 1, 1, 0, 1, 1, 0, 1, 1, 1, 1, 0, 0, 1, 1, 1, 1, 0, 0, 0, 1, 0, 0, 0, 1, 1, 1, 1, 1, 1, 0, 1, 1, 0, 0, 0, 1, 1, 1, 0, 1, 0, 1, 1, 0, 1, 0, 1, 0, 0, 0, 0, 1, 1, 0, 0, 1, 1, 0, 1, 1, 0, 0, 0, 0, 0, 1, 1, 0, 0, 0, 0, 0, 0, 0, 0, 1, 1, 0, 1, 1, 0, 1, 1, 0, 1, 0, 1, 1, 1, 0, 1, 0, 1, 1, 1, 1, 0, 0, 0, 0, 1, 0, 1, 0, 1, 0, 0, 1, 0, 0, 0, 0, 1, 0, 1, 1, 0, 0, 1, 0, 0, 1, 1, 0, 0, 0, 0, 0, 1, 0, 0, 0, 1, 0, 0, 1, 0, 0, 0, 0, 0, 0, 1, 0, 0, 0, 0, 0, 0, 0, 0, 0, 1, 0, 0, 1, 0, 0, 1, 0, 0, 1, 1, 0, 1, 0, 0, 1, 1, 0, 1, 0, 1, 1, 1, 1, 1, 0, 0, 1, 1, 0, 0, 0, 1, 1, 1, 1, 1, 0, 0, 1, 0, 0, 0, 1, 1, 1, 0, 1, 1, 1, 1, 1, 1, 0, 0, 0, 0, 1, 1, 1, 0, 0, 0, 0, 0, 0, 0]

/-- Literal value of `max_len_seq 10 [1, 2, 4, 7, 8]` (the scipy pure G2 m-sequence). -/
def A2LIT : List Int :=
  [1, 1, 1, 1, 1, 1, 1, 1, 1, 1, 0, 0, 1, 0, 1, 1, 0, 1, 0, 0, 1, 0, 1, 0, 1, 1, 1, 1, 0, 1, 0, 1, 0, 0, 0, 0, 0, 1, 1, 1, 1, 1, 0, 1, 0, 1, 0, 1, 0, 1, 1, 0, 1, 0, 0, 0, 0, 0, 1, 0, 1, 0, 0, 1, 1, 1, 0, 1, 1, 1, 0, 0, 1, 0, 0, 0, 0, 1, 1, 0, 1, 0, 0, 0, 1, 1, 0, 0, 1, 1, 1, 1, 1, 0, 1, 1, 1, 1, 0, 1, 1, 0, 1, 0, 0, 1, 1, 1, 1, 0, 0, 1, 0, 1, 0, 0, 0, 1, 1, 1, 1, 0, 1, 1, 0, 0, 0, 1, 0, 0, 1, 0, 1, 1, 1, 1, 0, 1, 1, 1, 1, 1, 1, 0, 1, 0, 0, 1, 0, 0, 1, 0, 1, 1, 0, 1, 1, 0, 0, 1, 0, 0, 0, 0, 0, 1, 1, 0, 1, 0, 1, 0, 0, 0, 1, 0, 0, 0, 0, 1, 0, 1, 0, 0, 0, 1, 0, 1, 0, 1, 0, 1, 1, 1, 1, 1, 1, 1, 0, 1, 0, 1, 1, 1, 1, 0, 0, 0, 0, 1, 1, 0, 1, 1, 0, 1, 0, 0, 0, 1, 0, 0, 1, 0, 0, 1, 0, 0, 1, 1, 0, 0, 0, 1, 0, 1, 0, 1, 1, 1, 0, 0, 0, 1, 0, 0, 1, 1, 1, 0, 0, 0, 0, 0, 0, 0, 1, 0, 0, 1, 0, 1, 0, 1, 0, 1, 0, 1, 0, 0, 0, 1, 1, 0, 1, 1, 0, 0, 0, 1, 1, 0, 0, 1, 0, 1, 0, 0, 1, 1, 0, 0, 0, 0, 0, 0, 1, 0, 1, 0, 1, 1, 0, 0, 1, 1, 0, 0, 1, 0, 0, 1, 1, 1, 1, 1, 1, 0, 0, 1, 1, 1, 0, 1, 0, 0, 1, 0, 1, 1, 1, 0, 0, 0, 0, 0, 1, 0, 0, 1, 1, 1, 1, 0, 1, 1, 1, 0, 1, 0, 1, 0, 0, 1, 0, 1, 0, 0, 1, 0, 0, 1, 1, 1, 0, 1, 0, 1, 1, 1, 0, 0, 1, 1, 1, 1, 0, 1, 0, 1, 1, 0, 1, 1, 1, 1, 0, 0, 0, 1, 1, 0, 1, 0, 1, 1, 0, 1, 0, 1, 0, 1, 1, 0, 0, 0, 1, 1, 1, 0, 0, 1, 0, 0, 1, 0, 0, 0, 1, 1, 1, 1, 1, 1, 0, 1, 1, 0, 0, 1, 1, 1, 1, 0, 0, 0, 0, 0, 1, 1, 0, 0, 0, 0, 1, 1, 0, 0, 1, 1, 0, 1, 0, 1, 0, 1, 0, 0, 1, 1, 0, 1, 0, 1, 1, 1, 1, 1, 0, 1, 1, 0, 1, 1, 0, 0, 0, 0, 1, 1, 1, 0, 0, 0, 1, 1, 1, 0, 1, 1, 1, 1, 0, 0, 1, 1, 0, 1, 0, 0, 0, 0, 1, 1, 1, 0, 1, 0, 0, 0, 0, 0, 0, 0, 0, 1, 1, 1, 0, 0, 1, 1, 0, 0, 1, 1, 0, 0, 0, 0, 1, 0, 0, 1, 0, 0, 0, 0, 1, 0, 0, 0, 1, 1, 0, 0, 0, 1, 0, 0, 0, 0, 0, 0, 0, 1, 1, 0, 0, 1, 0, 0, 0, 1, 0, 0, 0, 1, 1, 1, 0, 1, 0, 1, 0, 1, 1, 1, 0, 1, 0, 0, 1, 1, 1, 0, 0, 1, 0, 1, 1, 1, 1, 1, 1, 0, 0, 0, 1, 0, 1, 0, 0, 1, 0, 1, 1, 0, 0, 1, 1, 1, 0, 0, 1, 1, 1, 0, 0, 0, 1, 0, 1, 1, 0, 0, 1, 0, 1, 1, 1, 0, 1, 0, 1, 1, 0, 0, 1, 0, 0, 1, 0, 1, 0, 0, 0, 0, 1, 0, 0, 1, 1, 0, 1, 1, 0, 0, 1, 1, 0, 1, 1, 1, 1, 0, 1, 0, 0, 0, 1, 1, 1, 0, 0, 0, 0, 1, 0, 1, 0, 1, 0, 0, 1, 0, 0, 0, 1, 0, 1, 0, 0, 0, 0, 0, 0, 1, 0, 0, 0, 0, 0, 1, 0, 0, 0, 1, 0, 0, 1, 1, 0, 0, 1, 1, 1, 0, 1, 1, 0, 0, 1, 0, 1, 0, 1, 1, 0, 1, 1, 0, 1, 1, 1, 1, 1, 0, 1, 0, 0, 0, 0, 1, 0, 1, 1, 0, 1, 0, 1, 1, 1, 0, 1, 1, 0, 0, 0, 0, 0, 1, 0, 1, 1, 0, 0, 0, 0, 0, 0, 0, 0, 0, 1, 0, 1, 1, 1, 0, 1, 1, 1, 0, 1, 1, 1, 1, 1, 0, 0, 0, 1, 1, 1, 1, 1, 0, 0, 0, 0, 1, 0, 0, 0, 0, 1, 1, 1, 1, 1, 1, 1, 1, 0, 1, 1, 1, 0, 0, 0, 0, 1, 1, 1, 1, 0, 1, 0, 0, 1, 1, 0, 0, 1, 0, 1, 1, 0, 0, 0, 1, 0, 1, 1, 1, 0, 0, 1, 0, 1, 0, 1, 0, 0, 0, 0, 1, 1, 0, 0, 0, 1, 1, 0, 1, 1, 1, 0, 1, 0, 0, 0, 1, 0, 1, 1, 1, 1, 0, 0, 1, 0, 0, 0, 1, 1, 0, 1, 0, 0, 1, 1, 0, 1, 1, 1, 0, 0, 0, 1, 1, 0, 0, 0, 0, 0, 1, 1, 1, 0, 1, 1, 0, 1, 1, 1, 0, 1, 1, 0, 1, 0, 1, 1, 0, 0, 0, 0, 1, 0, 1, 1, 1, 1, 1, 0, 0, 1, 1, 0, 0, 0, 1, 1, 1, 1, 0, 0, 1, 1, 1, 1, 1, 1, 1, 0, 0, 0, 0, 0, 0, 1, 1, 1, 1, 0, 0, 0, 1, 0, 0, 0, 1, 0, 1, 1, 0, 1, 1, 1, 0, 0, 1, 1, 0, 1, 1, 0, 1, 1, 0, 1, 0, 1, 0, 0, 1, 1, 1, 1, 1, 0, 0, 1, 0, 0, 1, 1, 0, 1, 0, 0, 1, 0, 0, 0, 0, 0, 0, 1, 1, 0]

theorem V1_eq : regOuts [3, 10] 1033 init10 = V1LIT := by
  refine regOuts_chunk _ _ 93 940 _ [0, 0, 1, 0, 1, 1, 1, 0, 0, 0] _ rfl (by decide) (by decide) ?_
  refine regOuts_chunk _ _ 93 847 _ [1, 0, 0, 1, 1, 0, 1, 1, 0, 0] _ rfl (by decide) (by decide) ?_
  refine regOuts_chunk _ _ 93 754 _ [0, 0, 1, 0, 1, 0, 0, 1, 0, 0] _ rfl (by decide) (by decide) ?_
  refine regOuts_chunk _ _ 93 661 _ [1, 1, 1, 0, 0, 0, 0, 1, 1, 0] _ rfl (by decide) (by decide) ?_
  refine regOuts_chunk _ _ 93 568 _ [0, 0, 1, 0, 0, 1, 1, 1, 0, 1] _ rfl (by decide) (by decide) ?_
  refine regOuts_chunk _ _ 93 475 _ [0, 1, 1, 0, 0, 1, 1, 0, 1, 1] _ rfl (by decide) (by decide) ?_
  refine regOuts_chunk _ _ 93 382 _ [1, 0, 0, 1, 0, 1, 1, 0, 1, 1] _ rfl (by decide) (by decide) ?_
  refine regOuts_chunk _ _ 93 289 _ [0, 0, 0, 1, 0, 0, 1, 1, 0, 0] _ rfl (by decide) (by decide) ?_
  refine regOuts_chunk _ _ 93 196 _ [1, 1, 0, 1, 0, 1, 1, 1, 0, 0] _ rfl (by decide) (by decide) ?_
  refine regOuts_chunk _ _ 93 103 _ [1, 0, 0, 1, 0, 0, 0, 1, 0, 0] _ rfl (by decide) (by decide) ?_
  refine regOuts_chunk _ _ 93 10 _ [1, 1, 1, 1, 1, 1, 1, 1, 1, 1] _ rfl (by decide) (by decide) ?_
  decide

theorem V2_eq : regOuts [2, 3, 6, 8, 9, 10] 1033 init10 = V2LIT := by
  refine regOuts_chunk _ _ 93 940 _ [1, 0, 1, 1, 0, 1, 1, 1, 1, 0] _ rfl (by decide) (by decide) ?_
  refine regOuts_chunk _ _ 93 847 _ [1, 1, 1, 1, 1, 0, 1, 0, 1, 0] _ rfl (by decide) (by decide) ?_
  refine regOuts_chunk _ _ 93 754 _ [1, 0, 0, 1, 0, 1, 0, 0, 1, 1] _ rfl (by decide) (by decide) ?_
  refine regOuts_chunk _ _ 93 661 _ [0, 1, 1, 0, 1, 0, 1, 1, 1, 1] _ rfl (by decide) (by decide) ?_
  refine regOuts_chunk _ _ 93 568 _ [0, 1, 1, 0, 1, 1, 0, 1, 1, 1] _ rfl (by decide) (by decide) ?_
  refine regOuts_chunk _ _ 93 475 _ [1, 0, 0, 0, 1, 0, 0, 0, 1, 0] _ rfl (by decide) (by decide) ?_
  refine regOuts_chunk _ _ 93 382 _ [0, 1, 1, 0, 0, 1, 1, 0, 1, 1] _ rfl (by decide) (by decide) ?_
  refine regOuts_chunk _ _ 93 289 _ [0, 1, 1, 1, 0, 1, 0, 1, 1, 0] _ rfl (by decide) (by decide) ?_
  refine regOuts_chunk _ _ 93 196 _ [0, 1, 1, 1, 0, 1, 0, 0, 0, 1] _ rfl (by decide) (by decide) ?_
  refine regOuts_chunk _ _ 93 103 _ [1, 1, 0, 0, 1, 1, 1, 1, 1, 0] _ rfl (by decide) (by decide) ?_
  refine regOuts_chunk _ _ 93 10 _ [1, 1, 1, 1, 1, 1, 1, 1, 1, 1] _ rfl (by decide) (by decide) ?_
  decide

theorem A1_eq : max_len_seq 10 [7] = A1LIT := by
  show maxLenSeqGo 10 [7] 1023 (List.replicate 10 1) 0 = A1LIT
  refine msGo_chunk 10 [7] 1023 93 930 (List.replicate 10 1, 0) ([1, 0, 0, 0, 0, 0, 1, 1, 1, 0], 3) _ rfl (by decide) (by decide) ?_
  refine msGo_chunk 10 [7] 930 93 837 ([1, 0, 0, 0, 0, 0, 1, 1, 1, 0], 3) ([0, 1, 1, 0, 0, 1, 0, 0, 1, 1], 6) _ rfl (by decide) (by decide) ?_
  refine msGo_chunk 10 [7] 837 93 744 ([0, 1, 1, 0, 0, 1, 0, 0, 1, 1], 6) ([0, 1, 0, 0, 1, 0, 1, 0, 0, 0], 9) _ rfl (by decide) (by decide) ?_
  refine msGo_chunk 10 [7] 744 93 651 ([0, 1, 0, 0, 1, 0, 1, 0, 0, 0], 9) ([1, 1, 0, 1, 1, 0, 0, 0, 0, 1], 2) _ rfl (by decide) (by decide) ?_
  refine msGo_chunk 10 [7] 651 93 558 ([1, 1, 0, 1, 1, 0, 0, 0, 0, 1], 2) ([0, 0, 1, 0, 0, 1, 0, 1, 1, 1], 5) _ rfl (by decide) (by decide) ?_
  refine msGo_chunk 10 [7] 558 93 465 ([0, 0, 1, 0, 0, 1, 0, 1, 1, 1], 5) ([0, 1, 1, 0, 0, 1, 1, 0, 1, 1], 8) _ rfl (by decide) (by decide) ?_
  refine msGo_chunk 10 [7] 465 93 372 ([0, 1, 1, 0, 0, 1, 1, 0, 1, 1], 8) ([1, 1, 1, 0, 1, 1, 0, 1, 0, 0], 1) _ rfl (by decide) (by decide) ?_
  refine msGo_chunk 10 [7] 372 93 279 ([1, 1, 1, 0, 1, 1, 0, 1, 0, 0], 1) ([1, 0, 0, 0, 0, 0, 1, 1, 0, 0], 4) _ rfl (by decide) (by decide) ?_
  refine msGo_chunk 10 [7] 279 93 186 ([1, 0, 0, 0, 0, 0, 1, 1, 0, 0], 4) ([1, 1, 0, 1, 0, 1, 1, 0, 0, 1], 7) _ rfl (by decide) (by decide) ?_
  refine msGo_chunk 10 [7] 186 93 93 ([1, 1, 0, 1, 0, 1, 1, 0, 0, 1], 7) ([0, 0, 1, 0, 0, 0, 1, 0, 0, 1], 0) _ rfl (by decide) (by decide) ?_
  decide

theorem A2_eq : max_len_seq 10 [1, 2, 4, 7, 8] = A2LIT := by
  show maxLenSeqGo 10 [1, 2, 4, 7, 8] 1023 (List.replicate 10 1) 0 = A2LIT
  refine msGo_chunk 10 [1, 2, 4, 7, 8] 1023 93 930 (List.replicate 10 1, 0) ([1, 0, 1, 0, 1, 1, 1, 1, 0, 1], 3) _ rfl (by decide) (by decide) ?_
  refine msGo_chunk 10 [1, 2, 4, 7, 8] 930 93 837 ([1, 0, 1, 0, 1, 1, 1, 1, 0, 1], 3) ([0, 1, 1, 1, 1, 1, 0, 1, 0, 1], 6) _ rfl (by decide) (by decide) ?_
  refine msGo_chunk 10 [1, 2, 4, 7, 8] 837 93 744 ([0, 1, 1, 1, 1, 1, 0, 1, 0, 1], 6) ([1, 0, 0, 1, 0, 1, 0, 0, 1, 1], 9) _ rfl (by decide) (by decide) ?_
  refine msGo_chunk 10 [1, 2, 4, 7, 8] 744 93 651 ([1, 0, 0, 1, 0, 1, 0, 0, 1, 1], 9) ([1, 0, 1, 1, 1, 1, 0, 1, 0, 1], 2) _ rfl (by decide) (by decide) ?_
  refine msGo_chunk 10 [1, 2, 4, 7, 8] 651 93 558 ([1, 0, 1, 1, 1, 1, 0, 1, 0, 1], 2) ([1, 0, 1, 1, 0, 1, 1, 1, 0, 1], 5) _ rfl (by decide) (by decide) ?_
  refine msGo_chunk 10 [1, 2, 4, 7, 8] 558 93 465 ([1, 0, 1, 1, 0, 1, 1, 1, 0, 1], 5) ([0, 0, 0, 1, 0, 0, 0, 1, 0, 1], 8) _ rfl (by decide) (by decide) ?_
  refine msGo_chunk 10 [1, 2, 4, 7, 8] 465 93 372 ([0, 0, 0, 1, 0, 0, 0, 1, 0, 1], 8) ([0, 1, 1, 0, 1, 1, 0, 0, 1, 1], 1) _ rfl (by decide) (by decide) ?_
  refine msGo_chunk 10 [1, 2, 4, 7, 8] 372 93 279 ([0, 1, 1, 0, 1, 1, 0, 0, 1, 1], 1) ([1, 1, 1, 0, 0, 1, 1, 0, 1, 0], 4) _ rfl (by decide) (by decide) ?_
  refine msGo_chunk 10 [1, 2, 4, 7, 8] 279 93 186 ([1, 1, 1, 0, 0, 1, 1, 0, 1, 0], 4) ([0, 1, 0, 1, 1, 1, 0, 1, 0, 0], 7) _ rfl (by decide) (by decide) ?_
  refine msGo_chunk 10 [1, 2, 4, 7, 8] 186 93 93 ([0, 1, 0, 1, 1, 1, 0, 1, 0, 0], 7) ([0, 1, 1, 1, 1, 1, 0, 0, 1, 1], 0) _ rfl (by decide) (by decide) ?_
  decide

instance : DecidableEq (Except String Unit) := fun a b =>
  match a, b with
  | .error x, .error y =>
    if h : x = y then isTrue (by rw [h]) else
      isFalse (by intro hc; cases hc; exact h rfl)
  | .error _, .ok _ => isFalse (by intro hc; cases hc)
  | .ok _, .error _ => isFalse (by intro hc; cases hc)
  | .ok x, .ok y => isTrue (by cases x; cases y; rfl)

theorem regOuts_length (f : List Nat) (n : Nat) (r : List Int) :
    (regOuts f n r).length = n := by
  induction n generalizing r with
  | zero => rfl
  | succ n ih =>
    show ((r.getD 9 0) :: regOuts f n (regStep f r)).length = n + 1
    rw [List.length_cons, ih]

theorem maxLenSeqGo_length (nbits : Nat) (taps : List Nat) (n : Nat)
    (state : List Int) (idx : Nat) : (maxLenSeqGo nbits taps n state idx).length = n := by
  induction n generalizing state idx with
  | zero => rfl
  | succ n ih => rw [maxLenSeqGo_succ, List.length_cons, ih]

theorem V1LIT_length : V1LIT.length = 1033 := by
  rw [← V1_eq]; exact regOuts_length _ _ _

theorem V2LIT_length : V2LIT.length = 1033 := by
  rw [← V2_eq]; exact regOuts_length _ _ _

theorem A2LIT_length : A2LIT.length = 1023 := by
  rw [← A2_eq]; exact maxLenSeqGo_length _ _ _ _ _

theorem vS_eq_V1 (k : Nat) (h : k < 1033) : vS [3, 10] k = V1LIT.getD k 0 := by
  rw [← V1_eq]
  exact (regOuts_getD [3, 10] 1033 k init10 h).symm

theorem vS_eq_V2 (k : Nat) (h : k < 1033) :
    vS [2, 3, 6, 8, 9, 10] k = V2LIT.getD k 0 := by
  rw [← V2_eq]
  exact (regOuts_getD [2, 3, 6, 8, 9, 10] 1033 k init10 h).symm

/-- Re-expression of an index-formula map as a nest of `zipWith`s over
prefixes of the underlying streams (so that it can be evaluated
sequentially). -/
theorem range_map_as_zipWith (A B : List Int) (n c1 c2 : Nat)
    (hA : n ≤ A.length) (hB1 : n + c1 ≤ B.length) (hB2 : n + c2 ≤ B.length) :
    (List.range n).map (fun i =>
        (A.getD i 0 + (B.getD (i + c1) 0 + B.getD (i + c2) 0) % 2) % 2)
      = List.zipWith (fun a x => (a + x) % 2) (A.take n)
          (List.zipWith (fun b c => (b + c) % 2) ((B.drop c1).take n) ((B.drop c2).take n)) := by
  apply List.ext_getElem
  · simp only [List.length_map, List.length_range, List.length_zipWith, List.length_take,
      List.length_drop]
    omega
  · intro i h1 h2
    simp only [List.length_map, List.length_range] at h1
    simp only [List.getElem_map, List.getElem_range, List.getElem_zipWith,
      List.getElem_take, List.getElem_drop]
    rw [List.getD_eq_getElem A 0 (by omega), List.getD_eq_getElem B 0 (by omega),
      List.getD_eq_getElem B 0 (by omega)]
    simp only [Nat.add_comm i c1, Nat.add_comm i c2]

/-- The hand-rolled construction as a nest of `zipWith`s over the
literal output streams. -/
theorem taps_as_zipWith (ta tb : Nat) (h1 : 1 ≤ ta) (h2 : ta ≤ 10)
    (h3 : 1 ≤ tb) (h4 : tb ≤ 10) :
    _generate_ca_code_with_taps [ta, tb] =
      List.zipWith (fun a x => (a + x) % 2) (V1LIT.take 1023)
        (List.zipWith (fun b c => (b + c) % 2)
          ((V2LIT.drop (10 - ta)).take 1023) ((V2LIT.drop (10 - tb)).take 1023)) := by
  have h0 := caLoop_formula ta tb h1 h2 h3 h4 1023 0
  have hmid : (List.range 1023).map (fun i =>
      (vS [3, 10] (0 + i) + (vS [2, 3, 6, 8, 9, 10] (0 + i + (10 - ta)) +
        vS [2, 3, 6, 8, 9, 10] (0 + i + (10 - tb))) % 2) % 2) =
      (List.range 1023).map (fun i =>
      (V1LIT.getD i 0 + (V2LIT.getD (i + (10 - ta)) 0 + V2LIT.getD (i + (10 - tb)) 0) % 2) % 2) := by
    apply List.map_congr_left
    intro i hi
    rw [List.mem_range] at hi
    rw [Nat.zero_add i]
    rw [vS_eq_V1 i (by omega), vS_eq_V2 _ (by omega), vS_eq_V2 _ (by omega)]
  exact h0.trans (hmid.trans (range_map_as_zipWith V1LIT V2LIT 1023 (10 - ta) (10 - tb)
    (by rw [V1LIT_length]; omega) (by rw [V2LIT_length]; omega) (by rw [V2LIT_length]; omega)))

/-- The rolled construction with its two m-sequences replaced by their
literal values. -/
theorem rolled_as_zipWith (d : Nat) :
    _generate_ca_code_rolled_by d =
      List.zipWith (fun a b => (a + b) % 2) A1LIT (np_roll A2LIT d) := by
  show List.zipWith (fun a b => (a + b) % 2) (max_len_seq 10 [7])
      (np_roll (max_len_seq 10 [1, 2, 4, 7, 8]) d) = _
  rw [A1_eq, A2_eq]

/-- Unfolding of `np_roll` on a length-1023 list, with the length
supplied by a lemma rather than recomputed. -/
theorem np_roll_eq_of_length (xs : List Int) (d : Nat) (h : xs.length = 1023) :
    np_roll xs d = xs.drop (1023 - d % 1023) ++ xs.take (1023 - d % 1023) := by
  show xs.rotateRight d = _
  simp only [List.rotateRight, h]
  norm_num

theorem sat01 : _generate_ca_code_rolled_by 5 = _generate_ca_code_with_taps [2, 6] := by
  rw [rolled_as_zipWith, np_roll_eq_of_length A2LIT 5 A2LIT_length,
    taps_as_zipWith 2 6 (by norm_num) (by norm_num) (by norm_num) (by norm_num)]
  exact eq_of_beq (by decide)

theorem sat02 : _generate_ca_code_rolled_by 6 = _generate_ca_code_with_taps [3, 7] := by
  rw [rolled_as_zipWith, np_roll_eq_of_length A2LIT 6 A2LIT_length,
    taps_as_zipWith 3 7 (by norm_num) (by norm_num) (by norm_num) (by norm_num)]
  exact eq_of_beq (by decide)

theorem sat03 : _generate_ca_code_rolled_by 7 = _generate_ca_code_with_taps [4, 8] := by
  rw [rolled_as_zipWith, np_roll_eq_of_length A2LIT 7 A2LIT_length,
    taps_as_zipWith 4 8 (by norm_num) (by norm_num) (by norm_num) (by norm_num)]
  exact eq_of_beq (by decide)

theorem sat04 : _generate_ca_code_rolled_by 8 = _generate_ca_code_with_taps [5, 9] := by
  rw [rolled_as_zipWith, np_roll_eq_of_length A2LIT 8 A2LIT_length,
    taps_as_zipWith 5 9 (by norm_num) (by norm_num) (by norm_num) (by norm_num)]
  exact eq_of_beq (by decide)

theorem sat05 : _generate_ca_code_rolled_by 17 = _generate_ca_code_with_taps [1, 9] := by
  rw [rolled_as_zipWith, np_roll_eq_of_length A2LIT 17 A2LIT_length,
    taps_as_zipWith 1 9 (by norm_num) (by norm_num) (by norm_num) (by norm_num)]
  exact eq_of_beq (by decide)

theorem sat06 : _generate_ca_code_rolled_by 18 = _generate_ca_code_with_taps [2, 10] := by
  rw [rolled_as_zipWith, np_roll_eq_of_length A2LIT 18 A2LIT_length,
    taps_as_zipWith 2 10 (by norm_num) (by norm_num) (by norm_num) (by norm_num)]
  exact eq_of_beq (by decide)

theorem sat07 : _generate_ca_code_rolled_by 139 = _generate_ca_code_with_taps [1, 8] := by
  rw [rolled_as_zipWith, np_roll_eq_of_length A2LIT 139 A2LIT_length,
    taps_as_zipWith 1 8 (by norm_num) (by norm_num) (by norm_num) (by norm_num)]
  exact eq_of_beq (by decide)

theorem sat08 : _generate_ca_code_rolled_by 140 = _generate_ca_code_with_taps [2, 9] := by
  rw [rolled_as_zipWith, np_roll_eq_of_length A2LIT 140 A2LIT_length,
    taps_as_zipWith 2 9 (by norm_num) (by norm_num) (by norm_num) (by norm_num)]
  exact eq_of_beq (by decide)

theorem sat09 : _generate_ca_code_rolled_by 141 = _generate_ca_code_with_taps [3, 10] := by
  rw [rolled_as_zipWith, np_roll_eq_of_length A2LIT 141 A2LIT_length,
    taps_as_zipWith 3 10 (by norm_num) (by norm_num) (by norm_num) (by norm_num)]
  exact eq_of_beq (by decide)

theorem sat10 : _generate_ca_code_rolled_by 251 = _generate_ca_code_with_taps [2, 3] := by
  rw [rolled_as_zipWith, np_roll_eq_of_length A2LIT 251 A2LIT_length,
    taps_as_zipWith 2 3 (by norm_num) (by norm_num) (by norm_num) (by norm_num)]
  exact eq_of_beq (by decide)

theorem sat11 : _generate_ca_code_rolled_by 252 = _generate_ca_code_with_taps [3, 4] := by
  rw [rolled_as_zipWith, np_roll_eq_of_length A2LIT 252 A2LIT_length,
    taps_as_zipWith 3 4 (by norm_num) (by norm_num) (by norm_num) (by norm_num)]
  exact eq_of_beq (by decide)

theorem sat12 : _generate_ca_code_rolled_by 254 = _generate_ca_code_with_taps [5, 6] := by
  rw [rolled_as_zipWith, np_roll_eq_of_length A2LIT 254 A2LIT_length,
    taps_as_zipWith 5 6 (by norm_num) (by norm_num) (by norm_num) (by norm_num)]
  exact eq_of_beq (by decide)

theorem sat13 : _generate_ca_code_rolled_by 255 = _generate_ca_code_with_taps [6, 7] := by
  rw [rolled_as_zipWith, np_roll_eq_of_length A2LIT 255 A2LIT_length,
    taps_as_zipWith 6 7 (by norm_num) (by norm_num) (by norm_num) (by norm_num)]
  exact eq_of_beq (by decide)

theorem sat14 : _generate_ca_code_rolled_by 256 = _generate_ca_code_with_taps [7, 8] := by
  rw [rolled_as_zipWith, np_roll_eq_of_length A2LIT 256 A2LIT_length,
    taps_as_zipWith 7 8 (by norm_num) (by norm_num) (by norm_num) (by norm_num)]
  exact eq_of_beq (by decide)

theorem sat15 : _generate_ca_code_rolled_by 257 = _generate_ca_code_with_taps [8, 9] := by
  rw [rolled_as_zipWith, np_roll_eq_of_length A2LIT 257 A2LIT_length,
    taps_as_zipWith 8 9 (by norm_num) (by norm_num) (by norm_num) (by norm_num)]
  exact eq_of_beq (by decide)

theorem sat16 : _generate_ca_code_rolled_by 258 = _generate_ca_code_with_taps [9, 10] := by
  rw [rolled_as_zipWith, np_roll_eq_of_length A2LIT 258 A2LIT_length,
    taps_as_zipWith 9 10 (by norm_num) (by norm_num) (by norm_num) (by norm_num)]
  exact eq_of_beq (by decide)

theorem sat17 : _generate_ca_code_rolled_by 469 = _generate_ca_code_with_taps [1, 4] := by
  rw [rolled_as_zipWith, np_roll_eq_of_length A2LIT 469 A2LIT_length,
    taps_as_zipWith 1 4 (by norm_num) (by norm_num) (by norm_num) (by norm_num)]
  exact eq_of_beq (by decide)

theorem sat18 : _generate_ca_code_rolled_by 470 = _generate_ca_code_with_taps [2, 5] := by
  rw [rolled_as_zipWith, np_roll_eq_of_length A2LIT 470 A2LIT_length,
    taps_as_zipWith 2 5 (by norm_num) (by norm_num) (by norm_num) (by norm_num)]
  exact eq_of_beq (by decide)

theorem sat19 : _generate_ca_code_rolled_by 471 = _generate_ca_code_with_taps [3, 6] := by
  rw [rolled_as_zipWith, np_roll_eq_of_length A2LIT 471 A2LIT_length,
    taps_as_zipWith 3 6 (by norm_num) (by norm_num) (by norm_num) (by norm_num)]
  exact eq_of_beq (by decide)

theorem sat20 : _generate_ca_code_rolled_by 472 = _generate_ca_code_with_taps [4, 7] := by
  rw [rolled_as_zipWith, np_roll_eq_of_length A2LIT 472 A2LIT_length,
    taps_as_zipWith 4 7 (by norm_num) (by norm_num) (by norm_num) (by norm_num)]
  exact eq_of_beq (by decide)

theorem sat21 : _generate_ca_code_rolled_by 473 = _generate_ca_code_with_taps [5, 8] := by
  rw [rolled_as_zipWith, np_roll_eq_of_length A2LIT 473 A2LIT_length,
    taps_as_zipWith 5 8 (by norm_num) (by norm_num) (by norm_num) (by norm_num)]
  exact eq_of_beq (by decide)

theorem sat22 : _generate_ca_code_rolled_by 474 = _generate_ca_code_with_taps [6, 9] := by
  rw [rolled_as_zipWith, np_roll_eq_of_length A2LIT 474 A2LIT_length,
    taps_as_zipWith 6 9 (by norm_num) (by norm_num) (by norm_num) (by norm_num)]
  exact eq_of_beq (by decide)

theorem sat23 : _generate_ca_code_rolled_by 509 = _generate_ca_code_with_taps [1, 3] := by
  rw [rolled_as_zipWith, np_roll_eq_of_length A2LIT 509 A2LIT_length,
    taps_as_zipWith 1 3 (by norm_num) (by norm_num) (by norm_num) (by norm_num)]
  exact eq_of_beq (by decide)

theorem sat24 : _generate_ca_code_rolled_by 512 = _generate_ca_code_with_taps [4, 6] := by
  rw [rolled_as_zipWith, np_roll_eq_of_length A2LIT 512 A2LIT_length,
    taps_as_zipWith 4 6 (by norm_num) (by norm_num) (by norm_num) (by norm_num)]
  exact eq_of_beq (by decide)

theorem sat25 : _generate_ca_code_rolled_by 513 = _generate_ca_code_with_taps [5, 7] := by
  rw [rolled_as_zipWith, np_roll_eq_of_length A2LIT 513 A2LIT_length,
    taps_as_zipWith 5 7 (by norm_num) (by norm_num) (by norm_num) (by norm_num)]
  exact eq_of_beq (by decide)

theorem sat26 : _generate_ca_code_rolled_by 514 = _generate_ca_code_with_taps [6, 8] := by
  rw [rolled_as_zipWith, np_roll_eq_of_length A2LIT 514 A2LIT_length,
    taps_as_zipWith 6 8 (by norm_num) (by norm_num) (by norm_num) (by norm_num)]
  exact eq_of_beq (by decide)

theorem sat27 : _generate_ca_code_rolled_by 515 = _generate_ca_code_with_taps [7, 9] := by
  rw [rolled_as_zipWith, np_roll_eq_of_length A2LIT 515 A2LIT_length,
    taps_as_zipWith 7 9 (by norm_num) (by norm_num) (by norm_num) (by norm_num)]
  exact eq_of_beq (by decide)

theorem sat28 : _generate_ca_code_rolled_by 516 = _generate_ca_code_with_taps [8, 10] := by
  rw [rolled_as_zipWith, np_roll_eq_of_length A2LIT 516 A2LIT_length,
    taps_as_zipWith 8 10 (by norm_num) (by norm_num) (by norm_num) (by norm_num)]
  exact eq_of_beq (by decide)

theorem sat29 : _generate_ca_code_rolled_by 859 = _generate_ca_code_with_taps [1, 6] := by
  rw [rolled_as_zipWith, np_roll_eq_of_length A2LIT 859 A2LIT_length,
    taps_as_zipWith 1 6 (by norm_num) (by norm_num) (by norm_num) (by norm_num)]
  exact eq_of_beq (by decide)

theorem sat30 : _generate_ca_code_rolled_by 860 = _generate_ca_code_with_taps [2, 7] := by
  rw [rolled_as_zipWith, np_roll_eq_of_length A2LIT 860 A2LIT_length,
    taps_as_zipWith 2 7 (by norm_num) (by norm_num) (by norm_num) (by norm_num)]
  exact eq_of_beq (by decide)

theorem sat31 : _generate_ca_code_rolled_by 861 = _generate_ca_code_with_taps [3, 8] := by
  rw [rolled_as_zipWith, np_roll_eq_of_length A2LIT 861 A2LIT_length,
    taps_as_zipWith 3 8 (by norm_num) (by norm_num) (by norm_num) (by norm_num)]
  exact eq_of_beq (by decide)

theorem sat32 : _generate_ca_code_rolled_by 862 = _generate_ca_code_with_taps [4, 9] := by
  rw [rolled_as_zipWith, np_roll_eq_of_length A2LIT 862 A2LIT_length,
    taps_as_zipWith 4 9 (by norm_num) (by norm_num) (by norm_num) (by norm_num)]
  exact eq_of_beq (by decide)

/-- Claim C5: for every satellite id in [1, 32], the rotate-and-XOR
construction `_generate_ca_code_rolled_by`, invoked with that
satellite's standardized chip delay, produces a sequence bit-identical
to the hand-rolled shift-register construction
`_generate_ca_code_with_taps` invoked with that satellite's tap
configuration. -/
theorem rolled_matches_taps_construction :
    ∀ sv : Nat, 1 ≤ sv → sv ≤ 32 →
      _generate_ca_code_rolled_by ((gps_satellite_chip_delays.lookup sv).getD 0) =
        _generate_ca_code_with_taps
          ((satellite_id_to_g2_sequence_tap_configuration.lookup sv).getD []) := by
  intro sv h1 h2
  interval_cases sv

  · exact sat01
  · exact sat02
  · exact sat03
  · exact sat04
  · exact sat05
  · exact sat06
  · exact sat07
  · exact sat08
  · exact sat09
  · exact sat10
  · exact sat11
  · exact sat12
  · exact sat13
  · exact sat14
  · exact sat15
  · exact sat16
  · exact sat17
  · exact sat18
  · exact sat19
  · exact sat20
  · exact sat21
  · exact sat22
  · exact sat23
  · exact sat24
  · exact sat25
  · exact sat26
  · exact sat27
  · exact sat28
  · exact sat29
  · exact sat30
  · exact sat31
  · exact sat32

/-- Witness for C5 at satellite 1. -/
theorem rolled_matches_taps_construction_witness :
    _generate_ca_code_rolled_by ((gps_satellite_chip_delays.lookup 1).getD 0) =
      _generate_ca_code_with_taps
        ((satellite_id_to_g2_sequence_tap_configuration.lookup 1).getD []) :=
  rolled_matches_taps_construction 1 (by norm_num) (by norm_num)

/-! ## Claims -/

/-- Claim C4: generating with tap configuration `[2, 6]` (satellite 1)
yields a sequence whose first bit is 1 and whose bits at indices 1..9,
read as three big-endian 3-bit octal digits, equal 4, 4, 0 — the last
three digits of marker 1440; tap configuration `[1, 3]` (satellite 23)
yields first bit 1 and octal digits 0, 6, 3 — the last three digits of
marker 1063. -/
theorem satellite1_and_23_concrete_markers :
    ((_generate_ca_code_with_taps [2, 6]).headD 0 = 1 ∧
      octalDigitOfBits (((_generate_ca_code_with_taps [2, 6]).drop 1).take 3) = 4 ∧
      octalDigitOfBits ((((_generate_ca_code_with_taps [2, 6]).drop 1).drop 3).take 3) = 4 ∧
      octalDigitOfBits ((((_generate_ca_code_with_taps [2, 6]).drop 1).drop 6).take 3) = 0 ∧
      (decDigits 1440).drop 1 = [4, 4, 0]) ∧
    ((_generate_ca_code_with_taps [1, 3]).headD 0 = 1 ∧
      octalDigitOfBits (((_generate_ca_code_with_taps [1, 3]).drop 1).take 3) = 0 ∧
      octalDigitOfBits ((((_generate_ca_code_with_taps [1, 3]).drop 1).drop 3).take 3) = 6 ∧
      octalDigitOfBits ((((_generate_ca_code_with_taps [1, 3]).drop 1).drop 6).take 3) = 3 ∧
      (decDigits 1063).drop 1 = [0, 6, 3]) := by
  decide

/-- Claim C1 (evaluation at the failing input): the `GpsReplicaPrnSignal`
that `generate_replica_prn_signals` exposes for satellite 1 holds the
value `0` at chip index 2 — the raw chip bit, not an element of
`{-1, +1}`.  The dict comprehension wraps `_generate_ca_code_with_taps`
output directly and never applies the bit `0 → +1`, bit `1 → -1`
rescaling that the surrounding comment describes. -/
theorem replica_signals_not_rescaled_to_bpsk :
    generate_replica_prn_signals.map
        (fun tbl => ((tbl.lookup 1).getD ⟨[]⟩).inner.getD 2 0) = Except.ok 0 ∧
      ¬((0 : Int) = -1 ∨ (0 : Int) = 1) := by
  constructor
  · rfl
  · decide

/-- Claim C6: on a 10-value binary register with 1-indexed tap lists in
`[1, 10]`, `shift` returns the pre-update register value at the single
output tap (or the sum mod 2 of the pre-update values at all listed
output taps when there are several); it moves every register value one
position to the right and sets position 1 to the sum mod 2 of the
pre-update values at the feedback taps. -/
theorem shift_output_and_state_update :
    ∀ (register : List Int) (feedback output : List Nat),
      register.length = 10 → (∀ b ∈ register, b = 0 ∨ b = 1) →
      feedback ≠ [] → output ≠ [] →
      (∀ i ∈ feedback, 1 ≤ i ∧ i ≤ 10) → (∀ i ∈ output, 1 ≤ i ∧ i ≤ 10) →
      (output.length = 1 →
        (shift register feedback output).1 = register.getD (output.headD 1 - 1) 0) ∧
      (1 < output.length →
        (shift register feedback output).1 =
          (output.map (fun i => register.getD (i - 1) 0)).sum % 2) ∧
      (shift register feedback output).2.length = 10 ∧
      (∀ j : Nat, j + 1 < 10 →
        (shift register feedback output).2.getD (j + 1) 0 = register.getD j 0) ∧
      (shift register feedback output).2.getD 0 0 =
        (feedback.map (fun i => register.getD (i - 1) 0)).sum % 2 := by
  intro r f o hlen hbits hf0 ho0 hfr hor
  refine ⟨?_, ?_, ?_, ?_, rfl⟩
  · intro h1
    obtain ⟨p, rfl⟩ := List.length_eq_one.mp h1
    rfl
  · intro h1
    show (if (o.map (fun i => r.getD (i - 1) 0)).length > 1
        then (o.map (fun i => r.getD (i - 1) 0)).sum % 2
        else (o.map (fun i => r.getD (i - 1) 0)).headD 0) = _
    rw [if_pos (by rw [List.length_map]; exact h1)]
  · rw [shift_snd, regStep_length f r (by intro hr; rw [hr] at hlen; simp at hlen), hlen]
  · intro j hj
    rw [shift_snd]
    exact regStep_getD_succ f r j (by rw [hlen]; exact hj)

/-- Witness for C6 at a concrete register and the G1 taps. -/
theorem shift_output_and_state_update_witness :
    (([10] : List Nat).length = 1 →
      (shift [1, 0, 1, 1, 0, 1, 0, 0, 1, 0] [3, 10] [10]).1 =
        ([1, 0, 1, 1, 0, 1, 0, 0, 1, 0] : List Int).getD (([10] : List Nat).headD 1 - 1) 0) ∧
    (1 < ([10] : List Nat).length →
      (shift [1, 0, 1, 1, 0, 1, 0, 0, 1, 0] [3, 10] [10]).1 =
        (([10] : List Nat).map
          (fun i => ([1, 0, 1, 1, 0, 1, 0, 0, 1, 0] : List Int).getD (i - 1) 0)).sum % 2) ∧
    (shift [1, 0, 1, 1, 0, 1, 0, 0, 1, 0] [3, 10] [10]).2.length = 10 ∧
    (∀ j : Nat, j + 1 < 10 →
      (shift [1, 0, 1, 1, 0, 1, 0, 0, 1, 0] [3, 10] [10]).2.getD (j + 1) 0 =
        ([1, 0, 1, 1, 0, 1, 0, 0, 1, 0] : List Int).getD j 0) ∧
    (shift [1, 0, 1, 1, 0, 1, 0, 0, 1, 0] [3, 10] [10]).2.getD 0 0 =
      (([3, 10] : List Nat).map
        (fun i => ([1, 0, 1, 1, 0, 1, 0, 0, 1, 0] : List Int).getD (i - 1) 0)).sum % 2 :=
  shift_output_and_state_update [1, 0, 1, 1, 0, 1, 0, 0, 1, 0] [3, 10] [10]
    rfl (by decide) (by decide) (by decide) (by decide) (by decide)

theorem regStep_bits (f : List Nat) (r : List Int) (hb : ∀ b ∈ r, b = 0 ∨ b = 1) :
    ∀ b ∈ regStep f r, b = 0 ∨ b = 1 := by
  intro b hmem
  rcases List.mem_cons.mp hmem with h | h
  · subst h
    exact Int.emod_two_eq_zero_or_one _
  · exact hb b ((List.dropLast_sublist r).subset h)

theorem regStateN_init10_bits (f : List Nat) (n : Nat) :
    ∀ b ∈ regStateN f n init10, b = 0 ∨ b = 1 := by
  induction n with
  | zero =>
    intro b hb
    right
    exact List.eq_of_mem_replicate hb
  | succ n ih =>
    rw [regStateN_succ_right]
    exact regStep_bits f _ ih

/-- Claim C9: `shift` on a 10-element binary register with feedback taps
in `[1, 10]` leaves a 10-element register whose entries are strictly 0
or 1, and this invariant holds for the G1 and G2 registers (feedback
taps `[3, 10]` and `[2, 3, 6, 8, 9, 10]`) throughout all 1023 iterations
of a Gold-code generation run. -/
theorem shift_register_invariant :
    (∀ (r : List Int) (f o : List Nat), r.length = 10 → (∀ b ∈ r, b = 0 ∨ b = 1) →
      (∀ i ∈ f, 1 ≤ i ∧ i ≤ 10) →
      ((shift r f o).2.length = 10 ∧ ∀ b ∈ (shift r f o).2, b = 0 ∨ b = 1)) ∧
    (∀ n : Nat, n ≤ 1023 →
      ((regStateN [3, 10] n init10).length = 10 ∧
        (∀ b ∈ regStateN [3, 10] n init10, b = 0 ∨ b = 1)) ∧
      ((regStateN [2, 3, 6, 8, 9, 10] n init10).length = 10 ∧
        (∀ b ∈ regStateN [2, 3, 6, 8, 9, 10] n init10, b = 0 ∨ b = 1))) := by
  constructor
  · intro r f o hlen hbits _hfr
    rw [shift_snd]
    constructor
    · rw [regStep_length f r (by intro hr; rw [hr] at hlen; simp at hlen), hlen]
    · exact regStep_bits f r hbits
  · intro n _hn
    exact ⟨⟨regStateN_init10_length _ n, regStateN_init10_bits _ n⟩,
      ⟨regStateN_init10_length _ n, regStateN_init10_bits _ n⟩⟩

/-- Witness for C9 at a concrete register and at the full 1023-step
run. -/
theorem shift_register_invariant_witness :
    ((shift [1, 0, 1, 1, 0, 1, 0, 0, 1, 0] [3, 10] [10]).2.length = 10 ∧
      ∀ b ∈ (shift [1, 0, 1, 1, 0, 1, 0, 0, 1, 0] [3, 10] [10]).2, b = 0 ∨ b = 1) ∧
    ((regStateN [3, 10] 1023 init10).length = 10 ∧
      (∀ b ∈ regStateN [3, 10] 1023 init10, b = 0 ∨ b = 1)) ∧
    ((regStateN [2, 3, 6, 8, 9, 10] 1023 init10).length = 10 ∧
      (∀ b ∈ regStateN [2, 3, 6, 8, 9, 10] 1023 init10, b = 0 ∨ b = 1)) :=
  ⟨shift_register_invariant.1 [1, 0, 1, 1, 0, 1, 0, 0, 1, 0] [3, 10] [10]
      rfl (by decide) (by decide),
    shift_register_invariant.2 1023 (by norm_num)⟩

/-- The verification property of claim C2 for one satellite id: both
table lookups succeed, the per-satellite verification pass accepts the
generated sequence, the sequence's first bit is 1, and its next 9 bits,
grouped big-endian into three 3-bit values, equal the last three digits
of the reference marker. -/
def satisfiesMarkerChecks (sv : Nat) : Prop :=
  (satellite_id_to_g2_sequence_tap_configuration.lookup sv).isSome = true ∧
  (expected_prn_starting_markers.lookup sv).isSome = true ∧
  verifyPrn sv ((expected_prn_starting_markers.lookup sv).getD 0)
    (_generate_ca_code_with_taps
      ((satellite_id_to_g2_sequence_tap_configuration.lookup sv).getD [])) = Except.ok () ∧
  (_generate_ca_code_with_taps
    ((satellite_id_to_g2_sequence_tap_configuration.lookup sv).getD [])).headD 0 = 1 ∧
  ∀ j : Nat, j < 3 →
    octalDigitOfBits
      ((((_generate_ca_code_with_taps
        ((satellite_id_to_g2_sequence_tap_configuration.lookup sv).getD [])).drop 1).drop
          (j * 3)).take 3) =
      (decDigits ((expected_prn_starting_markers.lookup sv).getD 0)).getD (1 + j) 0

instance (sv : Nat) : Decidable (satisfiesMarkerChecks sv) := by
  unfold satisfiesMarkerChecks
  infer_instance

/-- Claim C2: with the tap table and reference-marker table exactly as
given in the source, the verification pass raises no error: for every
satellite id in `[1, 32]`, the generated sequence's first bit is 1 and
its next 9 bits, grouped big-endian into three 3-bit values, equal the
last three digits (read as octal digits) of that satellite's reference
marker. -/
theorem all_satellites_verify_against_markers :
    ∀ sv : Nat, 1 ≤ sv → sv ≤ 32 → satisfiesMarkerChecks sv := by
  have h : ∀ sv : Nat, sv < 33 → 1 ≤ sv → satisfiesMarkerChecks sv := by decide
  intro sv h1 h2
  exact h sv (by omega) h1

/-- Witness for C2 at satellite 1. -/
theorem all_satellites_verify_against_markers_witness : satisfiesMarkerChecks 1 :=
  all_satellites_verify_against_markers 1 (by norm_num) (by norm_num)

/-- The decidable table-shape property of claim C3 for one satellite id:
the tap configuration has exactly two distinct positions in `[1, 10]`
and the generated chip sequence starts with bit 1. -/
def tapEntryShape (sv : Nat) : Prop :=
  ((satellite_id_to_g2_sequence_tap_configuration.lookup sv).getD []).length = 2 ∧
  ((satellite_id_to_g2_sequence_tap_configuration.lookup sv).getD []).Nodup ∧
  (∀ t ∈ (satellite_id_to_g2_sequence_tap_configuration.lookup sv).getD [], 1 ≤ t ∧ t ≤ 10) ∧
  (_generate_ca_code_with_taps
    ((satellite_id_to_g2_sequence_tap_configuration.lookup sv).getD [])).headD 0 = 1

instance (sv : Nat) : Decidable (tapEntryShape sv) := by
  unfold tapEntryShape
  infer_instance

/-- Claim C3: for every satellite id in `[1, 32]`, the tap configuration
stored in the static table is a two-element list of distinct positions
in `[1, 10]`, and the chip-sequence generator returns a sequence of
exactly 1023 elements, each 0 or 1, whose first element is 1. -/
theorem chip_sequence_shape :
    ∀ sv : Nat, 1 ≤ sv → sv ≤ 32 →
      ∀ taps, satellite_id_to_g2_sequence_tap_configuration.lookup sv = some taps →
        (taps.length = 2 ∧ taps.Nodup ∧ ∀ t ∈ taps, 1 ≤ t ∧ t ≤ 10) ∧
        (_generate_ca_code_with_taps taps).length = 1023 ∧
        (∀ b ∈ _generate_ca_code_with_taps taps, b = 0 ∨ b = 1) ∧
        (_generate_ca_code_with_taps taps).headD 0 = 1 := by
  have hball : ∀ sv : Nat, sv < 33 → 1 ≤ sv → tapEntryShape sv := by decide
  intro sv h1 h2 taps ht
  have h3 := hball sv (by omega) h1
  unfold tapEntryShape at h3
  rw [ht, Option.getD_some] at h3
  exact ⟨⟨h3.1, h3.2.1, h3.2.2.1⟩, caLoop_length _ _ _ _,
    fun b hb => caLoop_mem _ _ _ _ b hb, h3.2.2.2⟩

/-- Witness for C3 at satellite 1 with taps `[2, 6]`. -/
theorem chip_sequence_shape_witness :
    (([2, 6] : List Nat).length = 2 ∧ ([2, 6] : List Nat).Nodup ∧
      ∀ t ∈ ([2, 6] : List Nat), 1 ≤ t ∧ t ≤ 10) ∧
    (_generate_ca_code_with_taps [2, 6]).length = 1023 ∧
    (∀ b ∈ _generate_ca_code_with_taps [2, 6], b = 0 ∨ b = 1) ∧
    (_generate_ca_code_with_taps [2, 6]).headD 0 = 1 :=
  chip_sequence_shape 1 (by norm_num) (by norm_num) [2, 6] (by decide)

/-- The per-satellite totality-and-verification property of claim C7:
the table returned by `generate_replica_prn_signals` has an entry for
the satellite id and that entry's signal passes the per-satellite
verification against the satellite's reference marker. -/
def satelliteEntryVerified (tbl : List (Nat × GpsReplicaPrnSignal)) (sv : Nat) : Prop :=
  (tbl.lookup sv).isSome = true ∧
  verifyPrn sv ((expected_prn_starting_markers.lookup sv).getD 0)
    ((tbl.lookup sv).getD ⟨[]⟩).inner = Except.ok ()

instance (tbl : List (Nat × GpsReplicaPrnSignal)) (sv : Nat) :
    Decidable (satelliteEntryVerified tbl sv) := by
  unfold satelliteEntryVerified
  infer_instance

/-- Claim C7: `generate_replica_prn_signals` is atomic — whenever it
returns a table (the `Except.ok` case, the only alternative to raising
an error and returning nothing), that table has all 32 entries and every
entry holds a signal that passes verification; no partial table is ever
returned. -/
theorem replica_table_total_when_ok :
    ∀ tbl, generate_replica_prn_signals = Except.ok tbl →
      tbl.length = 32 ∧ ∀ sv : Nat, 1 ≤ sv → sv ≤ 32 → satelliteEntryVerified tbl sv := by
  have hgen : generate_replica_prn_signals = Except.ok replica_output := rfl
  intro tbl h
  have h2 : replica_output = tbl := Except.ok.inj (hgen.symm.trans h)
  subst h2
  constructor
  · rfl
  · have hball : ∀ sv : Nat, sv < 33 → 1 ≤ sv → satelliteEntryVerified replica_output sv := by
      decide
    intro sv h1 h2
    exact hball sv (by omega) h1

/-- Witness for C7 at the table the generator actually returns. -/
theorem replica_table_total_when_ok_witness :
    replica_output.length = 32 ∧
      ∀ sv : Nat, 1 ≤ sv → sv ≤ 32 → satelliteEntryVerified replica_output sv :=
  replica_table_total_when_ok replica_output rfl

/-- First concrete sequence for C8: marker 1440 expects digits 4, 4, 0
after the leading 1; this sequence mismatches at digit index 0 (actual
2, expected 4). -/
def mismatchSeqA : List Int := [1, 0, 1, 0, 1, 0, 0, 0, 0, 0]

/-- Second concrete sequence for C8: digit index 0 matches (4), digit
index 1 mismatches (actual 2, expected 4). -/
def mismatchSeqB : List Int := [1, 1, 0, 0, 0, 1, 0, 0, 0, 0]

/-- Counterexample for claim C8: two sequences whose first mismatching
digit indices differ (0 for `mismatchSeqA`, 1 for `mismatchSeqB`)
produce the very same error value, so the raised error does not carry
the index of the mismatching digit. -/
theorem mismatch_error_identical_for_different_digit_indices :
    verifyPrn 1 1440 mismatchSeqA = verifyPrn 1 1440 mismatchSeqB ∧
    verifyPrn 1 1440 mismatchSeqA = Except.error (mismatchMessage 1 2 4) ∧
    octalDigitOfBits ((mismatchSeqA.drop 1).take 3) ≠ (decDigits 1440).getD 1 0 ∧
    octalDigitOfBits ((mismatchSeqB.drop 1).take 3) = (decDigits 1440).getD 1 0 ∧
    octalDigitOfBits (((mismatchSeqB.drop 1).drop 3).take 3) ≠ (decDigits 1440).getD 2 0 := by
  decide

theorem checkMarkerDigits_first_mismatch :
    ∀ (svid : Nat) (prn : List Int) (digits : List Int) (idx j : Nat),
      j < digits.length →
      (∀ i, i < j →
        octalDigitOfBits ((prn.drop ((idx + i) * 3)).take 3) = digits.getD i 0) →
      octalDigitOfBits ((prn.drop ((idx + j) * 3)).take 3) ≠ digits.getD j 0 →
      checkMarkerDigits svid prn digits idx =
        Except.error (mismatchMessage svid
          (octalDigitOfBits ((prn.drop ((idx + j) * 3)).take 3)) (digits.getD j 0)) := by
  intro svid prn digits
  induction digits with
  | nil =>
    intro idx j hj
    simp at hj
  | cons d rest ih =>
    intro idx j hj hpre hmis
    match j with
    | 0 =>
      have hmis0 : octalDigitOfBits ((prn.drop (idx * 3)).take 3) ≠ d := hmis
      show (if octalDigitOfBits ((prn.drop (idx * 3)).take 3) ≠ d then _ else _) = _
      rw [if_pos hmis0]
      rfl
    | j + 1 =>
      have hhead : octalDigitOfBits ((prn.drop (idx * 3)).take 3) = d := hpre 0 (by omega)
      show (if octalDigitOfBits ((prn.drop (idx * 3)).take 3) ≠ d then _ else _) = _
      rw [if_neg (by rw [hhead]; exact fun hc => hc rfl)]
      have hpre' : ∀ i, i < j →
          octalDigitOfBits ((prn.drop ((idx + 1 + i) * 3)).take 3) = rest.getD i 0 := by
        intro i hi
        have h := hpre (i + 1) (by omega)
        rwa [show idx + (i + 1) = idx + 1 + i from by omega] at h
      have hmis' : octalDigitOfBits ((prn.drop ((idx + 1 + j) * 3)).take 3) ≠ rest.getD j 0 := by
        rwa [show idx + (j + 1) = idx + 1 + j from by omega] at hmis
      have h := ih (idx + 1) j (by simpa using hj) hpre' hmis'
      rw [h, show idx + 1 + j = idx + (j + 1) from by omega]
      rfl

theorem getD_drop_one (l : List Int) (i : Nat) : (l.drop 1).getD i 0 = l.getD (1 + i) 0 := by
  cases l with
  | nil => rfl
  | cons a t =>
    show t.getD i 0 = (a :: t).getD (1 + i) 0
    rw [show 1 + i = i + 1 from by omega]
    rfl

/-- Claim C8 (amended): when the verification pass hits its first
mismatching digit, the raised error is exactly
`mismatchMessage svid actual expected` — it carries the satellite id and
the actual and expected octal digit values, and nothing else (in
particular not the digit index). -/
theorem mismatch_error_carries_id_and_digit_values :
    ∀ (svid marker : Nat) (prn : List Int) (j : Nat),
      (decDigits marker).headD 0 = 1 →
      prn.headD 0 = 1 →
      j < (decDigits marker).length - 1 →
      (∀ i, i < j →
        octalDigitOfBits (((prn.drop 1).drop (i * 3)).take 3) =
          (decDigits marker).getD (1 + i) 0) →
      octalDigitOfBits (((prn.drop 1).drop (j * 3)).take 3) ≠
        (decDigits marker).getD (1 + j) 0 →
      verifyPrn svid marker prn =
        Except.error (mismatchMessage svid
          (octalDigitOfBits (((prn.drop 1).drop (j * 3)).take 3))
          ((decDigits marker).getD (1 + j) 0)) := by
  intro svid marker prn j hd hp hj hpre hmis
  simp only [verifyPrn]
  rw [if_neg (by rw [hd]; exact fun hc => hc rfl), if_neg (by rw [hp]; exact fun hc => hc rfl)]
  have hpre' : ∀ i, i < j →
      octalDigitOfBits (((prn.drop 1).drop ((0 + i) * 3)).take 3) =
        ((decDigits marker).drop 1).getD i 0 := by
    intro i hi
    rw [show (0 + i) * 3 = i * 3 from by omega, getD_drop_one]
    exact hpre i hi
  have hmis' : octalDigitOfBits (((prn.drop 1).drop ((0 + j) * 3)).take 3) ≠
      ((decDigits marker).drop 1).getD j 0 := by
    rw [show (0 + j) * 3 = j * 3 from by omega, getD_drop_one]
    exact hmis
  have h := checkMarkerDigits_first_mismatch svid (prn.drop 1) ((decDigits marker).drop 1) 0 j
    (by rw [List.length_drop]; omega) hpre' hmis'
  rw [h, show (0 + j) * 3 = j * 3 from by omega, getD_drop_one]

/-- Witness for the amended C8 at satellite 1, marker 1440 and
`mismatchSeqA` (first mismatch at digit index 0). -/
theorem mismatch_error_carries_id_and_digit_values_witness :
    verifyPrn 1 1440 mismatchSeqA =
      Except.error (mismatchMessage 1
        (octalDigitOfBits (((mismatchSeqA.drop 1).drop (0 * 3)).take 3))
        ((decDigits 1440).getD (1 + 0) 0)) :=
  mismatch_error_carries_id_and_digit_values 1 1440 mismatchSeqA 0
    (by decide) (by decide) (by decide) (fun i hi => absurd hi (by omega)) (by decide)

theorem headD_take (s : List Int) : (s.take 10).headD 0 = s.headD 0 := by
  cases s <;> rfl

theorem checkMarkerDigits_congr :
    ∀ (svid : Nat) (digits : List Int) (idx : Nat) (s t : List Int),
      s.take ((idx + digits.length) * 3) = t.take ((idx + digits.length) * 3) →
      checkMarkerDigits svid s digits idx = checkMarkerDigits svid t digits idx := by
  intro svid digits
  induction digits with
  | nil =>
    intro idx s t h
    rfl
  | cons d rest ih =>
    intro idx s t h
    have hb : idx * 3 + 3 ≤ (idx + (d :: rest).length) * 3 := by
      rw [List.length_cons]
      omega
    have hcut : ∀ u : List Int, (u.drop (idx * 3)).take 3 =
        ((u.take ((idx + (d :: rest).length) * 3)).take (idx * 3 + 3)).drop (idx * 3) := by
      intro u
      rw [List.take_take, min_eq_left hb, List.drop_take,
        show idx * 3 + 3 - idx * 3 = 3 from by omega]
    have hslice : (s.drop (idx * 3)).take 3 = (t.drop (idx * 3)).take 3 := by
      rw [hcut s, hcut t, h]
    show (if octalDigitOfBits ((s.drop (idx * 3)).take 3) ≠ d then _ else _) = _
    rw [hslice]
    by_cases hc : octalDigitOfBits ((t.drop (idx * 3)).take 3) ≠ d
    · rw [if_pos hc]
      show _ = (if octalDigitOfBits ((t.drop (idx * 3)).take 3) ≠ d then _ else _)
      rw [if_pos hc]
    · rw [if_neg hc]
      show _ = (if octalDigitOfBits ((t.drop (idx * 3)).take 3) ≠ d then _ else _)
      rw [if_neg hc]
      apply ih (idx + 1)
      rw [show (idx + 1 + rest.length) * 3 = (idx + (d :: rest).length) * 3 from by
        rw [List.length_cons]; omega]
      exact h

theorem verifyPrn_take10 (svid marker : Nat) (hm : (decDigits marker).length = 4)
    (s t : List Int) (h10 : s.take 10 = t.take 10) :
    verifyPrn svid marker s = verifyPrn svid marker t := by
  simp only [verifyPrn]
  rw [show s.headD 0 = t.headD 0 from by rw [← headD_take s, ← headD_take t, h10]]
  by_cases h1 : (decDigits marker).headD 0 ≠ 1
  · rw [if_pos h1]
    rw [if_pos h1]
  · rw [if_neg h1]
    rw [if_neg h1]
    by_cases h2 : t.headD 0 ≠ 1
    · rw [if_pos h2]
      rw [if_pos h2]
    · rw [if_neg h2]
      rw [if_neg h2]
      apply checkMarkerDigits_congr
      rw [List.length_drop, hm, show (0 + (4 - 1)) * 3 = 9 from by norm_num]
      have e : ∀ u : List Int, (u.drop 1).take 9 = (u.take 10).drop 1 := by
        intro u
        rw [List.drop_take, show 10 - 1 = 9 from by norm_num]
      rw [e s, e t, h10]

/-- Claim C10: for every entry of the marker table, the per-satellite
verification pass depends only on the first 10 chips of the 1023-chip
sequence: two sequences agreeing on their first 10 chips verify
identically, so chips at indices 10 through 1022 are never compared
against anything. -/
theorem verification_depends_only_on_first_ten_chips :
    ∀ sv marker : Nat, (sv, marker) ∈ expected_prn_starting_markers →
      ∀ s t : List Int, s.length = 1023 → t.length = 1023 → s.take 10 = t.take 10 →
        verifyPrn sv marker s = verifyPrn sv marker t := by
  intro sv marker hmem s t hs ht h10
  have hm : (decDigits marker).length = 4 := by
    have hall : ∀ p ∈ expected_prn_starting_markers, (decDigits p.2).length = 4 := by decide
    exact hall (sv, marker) hmem
  exact verifyPrn_take10 sv marker hm s t h10

/-- Witness for C10 at satellite 1: a corrupted all-zero sequence and a
sequence differing from it only beyond chip index 9 verify
identically. -/
theorem verification_depends_only_on_first_ten_chips_witness :
    verifyPrn 1 1440 (List.replicate 1023 0) =
      verifyPrn 1 1440 (List.replicate 10 0 ++ List.replicate 1013 1) :=
  verification_depends_only_on_first_ten_chips 1 1440 (by decide)
    (List.replicate 1023 0) (List.replicate 10 0 ++ List.replicate 1013 1)
    (by simp) (by simp) (by decide)

end Gypsum


